import Mathlib

/-!
Verification of the nrf24 register-level driver.

A shallow embedding of `nrf24.py` (driver for the nRF24L01+ transceiver).

Conventions of the embedding:

* Python non-negative ints are `Nat`; the SPI bus carries 8-bit bytes, so a
  byte observed from the device register `a` is `regs a % 256` (`readByte`).
* The connected chip is modelled by a fixed map `regs : Nat → Nat` from
  register address to current content; by the chip's hardware contract byte 0
  of every SPI response is the current STATUS register (address 0x07), and
  byte 1 of a read-register response is the addressed register's content.
* Every SPI exchange and GPIO action performed by the driver is recorded in a
  trace (`TraceEntry`), so ordering/atomicity claims are statements about the
  produced trace.
* Python `assert`/`raise` failures are `Except.error` values of `NrfError`;
  each constructor names the check from the source that fails.
* Python `value & ~mask` on non-negative ints is exactly `Nat.ldiff value mask`
  (remove the bits of `mask`), with no word-size assumption.
* Docstrings and register-description strings from the source are omitted:
  they are documentation data never inspected by the code.
-/

namespace Nrf24

/-- Errors of the embedding.  Each constructor corresponds to one `assert`
(or name-lookup failure) in the source. -/
inductive NrfError where
  /-- `_RegisterField.__init__`: value supplied but `"W" not in RW`. -/
  | writeNotPermittedError
  /-- `_RegisterField.__init__`: value outside `[0, maxValue]`. -/
  | rangeError
  /-- `_RegisterFieldSet.__ior__`: field from a different register. -/
  | conflictDifferentRegister
  /-- `_RegisterFieldSet.__ior__`: field name already included. -/
  | conflictFieldAlreadyIncluded
  /-- `set()`: same register given twice as a whole-register write. -/
  | registerSpecifiedTwice
  /-- `set()`: register written both whole and through fields. -/
  | registerFieldConflict
  /-- `set()`: `r.fields[0]` on an empty `_RegisterFieldSet` (IndexError). -/
  | indexError
  /-- `set()`: called with no arguments. -/
  | noArguments
  /-- `_set_registers`: duplicate addresses among whole-register writes. -/
  | duplicateRegister
  /-- `_assert_valid_register_and_size` failure. -/
  | invalidAddressOrSize
  /-- `_to_bytes`: value is `None`/not a byte list (the int-or-list assert). -/
  | valueError
  /-- `get()`: a variable-size register passed where a 1-byte one is needed. -/
  | variableSizeRegister
  /-- `_Register.__init__`: value incompatible with the register's size. -/
  | invalidRegisterValue
  /-- `_write_payload`: payload length outside `[1, 32]`. -/
  | invalidPayload
  /-- Python `NameError`: lookup of an unbound (module-level) name. -/
  | nameError
  /-- An exception raised by the underlying SPI transport while polling. -/
  | spiError
deriving DecidableEq, Repr

/-- One entry of the bus/GPIO trace produced by the driver. -/
inductive TraceEntry where
  /-- `gpio.chip_enable_low()` -/
  | gpioEnableLow
  /-- `gpio.chip_enable_high()` -/
  | gpioEnableHigh
  /-- `spi.xfer2(bytes)`: one full-duplex exchange of the given byte string. -/
  | spi (bytes : List Nat)
deriving DecidableEq, Repr

/-- The chip returns 8-bit bytes: the byte observed for register `a`. -/
def readByte (regs : Nat → Nat) (a : Nat) : Nat := regs a % 256

/-- `_SPI_NOP = 0xFF` -/
def _SPI_NOP : Nat := 0xFF

/-- Python `"W" in rw` for the capability strings (`"R"`, `"W"`, `"R/W"`):
membership of the character `W`.  (Stated over the character list so that it
evaluates by reduction.) -/
def rwHasW (rw : String) : Bool := rw.data.contains 'W'

/-- Mirror of `_RegisterFieldInfo` (the raw catalog rows); the `description`
string of the source is omitted (documentation only). -/
structure RegisterFieldInfo where
  name : String
  start_bit : Nat
  num_bits : Nat
  reset_value : Nat
  rw : String
deriving DecidableEq, Repr

/-- Mirror of `_RegisterInfo`; `description` omitted (documentation only). -/
structure RegisterInfo where
  name : String
  address : Nat
  min_size : Nat
  max_size : Nat
  fields : List RegisterFieldInfo
deriving DecidableEq, Repr

/-- The `_REGISTERS` catalog of `nrf24.py`, transcribed row for row
(description strings dropped); each register row is named so that proofs can
refer to it. -/
def regCONFIG : RegisterInfo :=
  ⟨"CONFIG", 0x00, 1, 1, [
      ⟨"Reserved", 7, 1, 0, "R/W"⟩,
      ⟨"MASK_RX_DR", 6, 1, 0, "R/W"⟩,
      ⟨"MASK_TX_DS", 5, 1, 0, "R/W"⟩,
      ⟨"MASK_MAX_RT", 4, 1, 0, "R/W"⟩,
      ⟨"EN_CRC", 3, 1, 1, "R/W"⟩,
      ⟨"CRCO", 2, 1, 0, "R/W"⟩,
      ⟨"PWR_UP", 1, 1, 0, "R/W"⟩,
      ⟨"PRIM_RX", 0, 1, 0, "R/W"⟩]⟩

/-- `EN_AA` register row. -/
def regEN_AA : RegisterInfo :=
  ⟨"EN_AA", 0x01, 1, 1, [
      ⟨"Reserved", 6, 2, 0, "R/W"⟩,
      ⟨"ENAA_P5", 5, 1, 1, "R/W"⟩,
      ⟨"ENAA_P4", 4, 1, 1, "R/W"⟩,
      ⟨"ENAA_P3", 3, 1, 1, "R/W"⟩,
      ⟨"ENAA_P2", 2, 1, 1, "R/W"⟩,
      ⟨"ENAA_P1", 1, 1, 1, "R/W"⟩,
      ⟨"ENAA_P0", 0, 1, 1, "R/W"⟩]⟩

/-- `EN_RXADDR` register row. -/
def regEN_RXADDR : RegisterInfo :=
  ⟨"EN_RXADDR", 0x02, 1, 1, [
      ⟨"Reserved", 6, 2, 0, "R/W"⟩,
      ⟨"ERX_P5", 5, 1, 0, "R/W"⟩,
      ⟨"ERX_P4", 4, 1, 0, "R/W"⟩,
      ⟨"ERX_P3", 3, 1, 0, "R/W"⟩,
      ⟨"ERX_P2", 2, 1, 0, "R/W"⟩,
      ⟨"ERX_P1", 1, 1, 1, "R/W"⟩,
      ⟨"ERX_P0", 0, 1, 1, "R/W"⟩]⟩

/-- `SETUP_AW` register row. -/
def regSETUP_AW : RegisterInfo :=
  ⟨"SETUP_AW", 0x03, 1, 1, [
      ⟨"Reserved", 2, 6, 0, "R/W"⟩,
      ⟨"AW", 0, 2, 0b11, "R/W"⟩]⟩

/-- `SETUP_RETR` register row. -/
def regSETUP_RETR : RegisterInfo :=
  ⟨"SETUP_RETR", 0x04, 1, 1, [
      ⟨"ARD", 4, 4, 0, "R/W"⟩,
      ⟨"ARC", 0, 4, 0b0011, "R/W"⟩]⟩

/-- `RF_CH` register row. -/
def regRF_CH : RegisterInfo :=
  ⟨"RF_CH", 0x05, 1, 1, [
      ⟨"Reserved", 7, 1, 0, "R/W"⟩,
      ⟨"RF_CH", 0, 7, 0b0000010, "R/W"⟩]⟩

/-- `RF_SETUP` register row. -/
def regRF_SETUP : RegisterInfo :=
  ⟨"RF_SETUP", 0x06, 1, 1, [
      ⟨"CONT_WAVE", 7, 1, 0, "R/W"⟩,
      ⟨"Reserved", 6, 1, 0, "R/W"⟩,
      ⟨"RF_DR_LOW", 5, 1, 0, "R/W"⟩,
      ⟨"PLL_LOCK", 4, 1, 0, "R/W"⟩,
      ⟨"RF_DR_HIGH", 3, 1, 1, "R/W"⟩,
      ⟨"RF_PWR", 1, 2, 0b11, "R/W"⟩,
      ⟨"Obsolete", 0, 1, 0, "R/W"⟩]⟩

/-- `STATUS` register row. -/
def regSTATUS : RegisterInfo :=
  ⟨"STATUS", 0x07, 1, 1, [
      ⟨"Reserved", 7, 1, 0, "R/W"⟩,
      ⟨"RX_DR", 6, 1, 0, "R/W"⟩,
      ⟨"TX_DS", 5, 1, 0, "R/W"⟩,
      ⟨"MAX_RT", 4, 1, 0, "R/W"⟩,
      ⟨"RX_P_NO", 1, 3, 0b111, "R"⟩,
      ⟨"TX_FULL", 0, 1, 0, "R"⟩]⟩

/-- `OBSERVE_TX` register row. -/
def regOBSERVE_TX : RegisterInfo :=
  ⟨"OBSERVE_TX", 0x08, 1, 1, [
      ⟨"PLOS_CNT", 4, 4, 0, "R"⟩,
      ⟨"ARC_CNT", 0, 4, 0, "R"⟩]⟩

/-- `RPD` register row. -/
def regRPD : RegisterInfo :=
  ⟨"RPD", 0x09, 1, 1, [
      ⟨"Reserved", 1, 7, 0, "R"⟩,
      ⟨"RPD", 0, 1, 0, "R"⟩]⟩

/-- `RX_ADDR_P0` register row. -/
def regRX_ADDR_P0 : RegisterInfo := ⟨"RX_ADDR_P0", 0x0A, 3, 5, []⟩

/-- `RX_ADDR_P1` register row. -/
def regRX_ADDR_P1 : RegisterInfo := ⟨"RX_ADDR_P1", 0x0B, 3, 5, []⟩

/-- `RX_ADDR_P2` register row. -/
def regRX_ADDR_P2 : RegisterInfo :=
  ⟨"RX_ADDR_P2", 0x0C, 1, 1, [⟨"RX_ADDR_P2", 0, 8, 0xC3, "R/W"⟩]⟩

/-- `RX_ADDR_P3` register row. -/
def regRX_ADDR_P3 : RegisterInfo :=
  ⟨"RX_ADDR_P3", 0x0D, 1, 1, [⟨"RX_ADDR_P3", 0, 8, 0xC4, "R/W"⟩]⟩

/-- `RX_ADDR_P4` register row. -/
def regRX_ADDR_P4 : RegisterInfo :=
  ⟨"RX_ADDR_P4", 0x0E, 1, 1, [⟨"RX_ADDR_P4", 0, 8, 0xC5, "R/W"⟩]⟩

/-- `RX_ADDR_P5` register row. -/
def regRX_ADDR_P5 : RegisterInfo :=
  ⟨"RX_ADDR_P5", 0x0F, 1, 1, [⟨"RX_ADDR_P5", 0, 8, 0xC6, "R/W"⟩]⟩

/-- `TX_ADDR` register row. -/
def regTX_ADDR : RegisterInfo := ⟨"TX_ADDR", 0x10, 3, 5, []⟩

/-- `RX_PW_P0` register row. -/
def regRX_PW_P0 : RegisterInfo :=
  ⟨"RX_PW_P0", 0x11, 1, 1, [
      ⟨"Reserved", 6, 2, 0, "R/W"⟩,
      ⟨"RX_PW_P0", 0, 6, 0, "R/W"⟩]⟩

/-- `RX_PW_P1` register row. -/
def regRX_PW_P1 : RegisterInfo :=
  ⟨"RX_PW_P1", 0x12, 1, 1, [
      ⟨"Reserved", 6, 2, 0, "R/W"⟩,
      ⟨"RX_PW_P1", 0, 6, 0, "R/W"⟩]⟩

/-- `RX_PW_P2` register row. -/
def regRX_PW_P2 : RegisterInfo :=
  ⟨"RX_PW_P2", 0x13, 1, 1, [
      ⟨"Reserved", 6, 2, 0, "R/W"⟩,
      ⟨"RX_PW_P2", 0, 6, 0, "R/W"⟩]⟩

/-- `RX_PW_P3` register row. -/
def regRX_PW_P3 : RegisterInfo :=
  ⟨"RX_PW_P3", 0x14, 1, 1, [
      ⟨"Reserved", 6, 2, 0, "R/W"⟩,
      ⟨"RX_PW_P3", 0, 6, 0, "R/W"⟩]⟩

/-- `RX_PW_P4` register row. -/
def regRX_PW_P4 : RegisterInfo :=
  ⟨"RX_PW_P4", 0x15, 1, 1, [
      ⟨"Reserved", 6, 2, 0, "R/W"⟩,
      ⟨"RX_PW_P4", 0, 6, 0, "R/W"⟩]⟩

/-- `RX_PW_P5` register row. -/
def regRX_PW_P5 : RegisterInfo :=
  ⟨"RX_PW_P5", 0x16, 1, 1, [
      ⟨"Reserved", 6, 2, 0, "R/W"⟩,
      ⟨"RX_PW_P5", 0, 6, 0, "R/W"⟩]⟩

/-- `FIFO_STATUS` register row. -/
def regFIFO_STATUS : RegisterInfo :=
  ⟨"FIFO_STATUS", 0x17, 1, 1, [
      ⟨"Reserved", 7, 1, 0, "R/W"⟩,
      ⟨"TX_REUSE", 6, 1, 0, "R"⟩,
      ⟨"TX_FULL_", 5, 1, 0, "R"⟩,
      ⟨"TX_EMPTY", 4, 1, 1, "R"⟩,
      ⟨"Reserved", 2, 2, 0, "R/W"⟩,
      ⟨"RX_FULL", 1, 1, 0, "R"⟩,
      ⟨"RX_EMPTY", 0, 1, 1, "R"⟩]⟩

/-- `DYNPD` register row. -/
def regDYNPD : RegisterInfo :=
  ⟨"DYNPD", 0x1C, 1, 1, [
      ⟨"Reserved", 6, 2, 0, "R/W"⟩,
      ⟨"DPL_P5", 5, 1, 0, "R/W"⟩,
      ⟨"DPL_P4", 4, 1, 0, "R/W"⟩,
      ⟨"DPL_P3", 3, 1, 0, "R/W"⟩,
      ⟨"DPL_P2", 2, 1, 0, "R/W"⟩,
      ⟨"DPL_P1", 1, 1, 0, "R/W"⟩,
      ⟨"DPL_P0", 0, 1, 0, "R/W"⟩]⟩

/-- `FEATURE` register row. -/
def regFEATURE : RegisterInfo :=
  ⟨"FEATURE", 0x1D, 1, 1, [
      ⟨"Reserved", 3, 5, 0, "R/W"⟩,
      ⟨"EN_DPL", 2, 1, 0, "R/W"⟩,
      ⟨"EN_ACK_PAY", 1, 1, 0, "R/W"⟩,
      ⟨"EN_DYN_ACK", 0, 1, 0, "R/W"⟩]⟩

/-- The `_REGISTERS` list, in catalog order. -/
def _REGISTERS : List RegisterInfo :=
  [regCONFIG, regEN_AA, regEN_RXADDR, regSETUP_AW, regSETUP_RETR, regRF_CH,
   regRF_SETUP, regSTATUS, regOBSERVE_TX, regRPD, regRX_ADDR_P0, regRX_ADDR_P1,
   regRX_ADDR_P2, regRX_ADDR_P3, regRX_ADDR_P4, regRX_ADDR_P5, regTX_ADDR,
   regRX_PW_P0, regRX_PW_P1, regRX_PW_P2, regRX_PW_P3, regRX_PW_P4, regRX_PW_P5,
   regFIFO_STATUS, regDYNPD, regFEATURE]

/-- The class-level constants of a generated `_RegisterField` subclass
(`REGISTER_NAME`, `REGISTER_ADDRESS`, `FIELD_NAME`, `START_BIT`, `NUM_BITS`,
`RESET_VALUE`, `RW`; `DESCRIPTION` omitted). -/
structure FieldSpec where
  register_name : String
  register_address : Nat
  field_name : String
  start_bit : Nat
  num_bits : Nat
  reset_value : Nat
  rw : String
deriving DecidableEq, Repr

/-- The class-level constants of a generated `_Register` subclass
(`NAME`, `ADDRESS`, `MIN_SIZE`, `MAX_SIZE`; `FIELDS`/`DESCRIPTION` omitted:
they are only used by the debugging helper `register_to_string`). -/
structure RegisterSpec where
  name : String
  address : Nat
  min_size : Nat
  max_size : Nat
deriving DecidableEq, Repr

/-- `_create_field_class` applied to one catalog row of one register. -/
def toFieldSpec (r : RegisterInfo) (f : RegisterFieldInfo) : FieldSpec :=
  ⟨r.name, r.address, f.name, f.start_bit, f.num_bits, f.reset_value, f.rw⟩

/-- The field classes `_create_module_variables` installs as module variables:
every catalog field whose name is not `"Reserved"`. -/
def moduleFieldSpecs : List FieldSpec :=
  _REGISTERS.foldr
    (fun r acc =>
      ((r.fields.filter (fun f => f.name ≠ "Reserved")).map (toFieldSpec r)) ++ acc)
    []

/-- Python `getattr(sys.modules[__name__], name)` for a field class: module
variables are looked up by (globally unique) field name. -/
def moduleAttr (n : String) : Except NrfError FieldSpec :=
  match moduleFieldSpecs.find? (fun s => s.field_name = n) with
  | some s => .ok s
  | none => .error .nameError

/-- `_get_unshifted_mask(field) = (1 << NUM_BITS) - 1` -/
def _get_unshifted_mask (f : FieldSpec) : Nat := (1 <<< f.num_bits) - 1

/-- `_get_mask(field) = unshifted_mask << START_BIT` -/
def _get_mask (f : FieldSpec) : Nat := _get_unshifted_mask f <<< f.start_bit

/-- `_RegisterField.get_max_value() = (1 << NUM_BITS) - 1` -/
def FieldSpec.get_max_value (f : FieldSpec) : Nat := (1 <<< f.num_bits) - 1

/-- `_RegisterField.get(x) = (x >> START_BIT) & unshifted_mask` (the source
also asserts `0 ≤ x ≤ 255`, true for every byte read from the bus). -/
def FieldSpec.get (f : FieldSpec) (x : Nat) : Nat :=
  (x >>> f.start_bit) &&& _get_unshifted_mask f

/-- An instance of a `_RegisterField` subclass carrying a (non-`None`) value:
a field spec bound to a concrete value. -/
structure RegisterField where
  spec : FieldSpec
  value : Nat
deriving DecidableEq, Repr

/-- `_RegisterField.__init__(value)` for a supplied (non-`None`) value.  The
source checks, in this order: `"W" in self.RW`, then
`0 <= value <= self.get_max_value()`.  (`value=None` — the form used only as
a plain spec — performs neither check and binds no value; it is not needed
here.) -/
def mkRegisterField (spec : FieldSpec) (value : Nat) : Except NrfError RegisterField :=
  if ¬ rwHasW spec.rw then .error .writeNotPermittedError
  else if ¬ value ≤ spec.get_max_value then .error .rangeError
  else .ok ⟨spec, value⟩

/-- `_RegisterField.get_unshifted_value() = value << START_BIT` -/
def RegisterField.get_unshifted_value (f : RegisterField) : Nat :=
  f.value <<< f.spec.start_bit

/-- `_RegisterFieldSet`: the value of several fields in one register,
accumulated with `|`. -/
structure RegisterFieldSet where
  fields : List RegisterField
deriving DecidableEq, Repr

/-- `_RegisterFieldSet.get_register_address()`.  The source asserts the set is
non-empty; all call sites guard this, so the empty case returns a junk 0. -/
def RegisterFieldSet.getRegisterAddress (s : RegisterFieldSet) : Nat :=
  match s.fields with
  | [] => 0
  | f :: _ => f.spec.register_address

/-- `_RegisterFieldSet.get_mask()`: OR of the members' shifted masks.  The
asserts of the source (`mask & m == 0` at each step, result ≤ 0xFF) are the
invariants proved below for sets built through `ior`. -/
def RegisterFieldSet.get_mask (s : RegisterFieldSet) : Nat :=
  s.fields.foldl (fun m f => m ||| _get_mask f.spec) 0

/-- `_RegisterFieldSet.get_value()`: OR of the members' shifted values.  The
asserts of the source (`value & mask == value`) are proved below. -/
def RegisterFieldSet.get_value (s : RegisterFieldSet) : Nat :=
  s.fields.foldl (fun v f => v ||| f.get_unshifted_value) 0

/-- `_RegisterFieldSet.get_num_fields()` -/
def RegisterFieldSet.get_num_fields (s : RegisterFieldSet) : Nat := s.fields.length

/-- `_RegisterFieldSet.__ior__` with a `_RegisterField` argument ( insertion
of one field value).  Source order: first the same-register assert
(`self.fields == [] or other.REGISTER_ADDRESS == self.get_register_address()`),
then the fresh-name assert (`all(other.FIELD_NAME != f.FIELD_NAME ...)`),
then `self.fields.append(other)`. -/
def RegisterFieldSet.ior (s : RegisterFieldSet) (other : RegisterField) :
    Except NrfError RegisterFieldSet :=
  if s.fields ≠ [] ∧ other.spec.register_address ≠ s.getRegisterAddress then
    .error .conflictDifferentRegister
  else if s.fields.any (fun f => other.spec.field_name = f.spec.field_name) then
    .error .conflictFieldAlreadyIncluded
  else .ok ⟨s.fields ++ [other]⟩

/-- `_RegisterFieldSet.__ior__` with a `_RegisterFieldSet` argument:
`for f in other.fields: self |= f`. -/
def RegisterFieldSet.iorMany (s other : RegisterFieldSet) :
    Except NrfError RegisterFieldSet :=
  other.fields.foldlM RegisterFieldSet.ior s

/-- A `_RegisterField` value that can actually exist at runtime: its spec is
one of the module's generated field classes and its value passed the
constructor's range check. -/
def RegisterField.WF (f : RegisterField) : Prop :=
  f.spec ∈ moduleFieldSpecs ∧ f.value ≤ f.spec.get_max_value

instance (f : RegisterField) : Decidable f.WF := by
  unfold RegisterField.WF; infer_instance

/-- The `_RegisterFieldSet` values reachable at runtime: built from the empty
set by successful `__ior__` insertions of well-formed field values. -/
inductive Built : RegisterFieldSet → Prop where
  | nil : Built ⟨[]⟩
  | insert (s : RegisterFieldSet) (f : RegisterField) (s' : RegisterFieldSet) :
      Built s → f.WF → s.ior f = .ok s' → Built s'

/-- The value held by a `_Register` instance: `None`, a single int, or a list
of ints.  (The source also accepts a string in `_to_bytes`; no register value
of this module is ever a string.) -/
inductive RegValueData where
  | noneVal
  | intVal (n : Nat)
  | listVal (l : List Nat)
deriving DecidableEq, Repr

/-- A `_Register` instance: a register spec bound to a value. -/
structure RegisterValue where
  spec : RegisterSpec
  value : RegValueData
deriving DecidableEq, Repr

/-- `_Register.__init__`: `value` may be `None`; an int requires
`MIN_SIZE == MAX_SIZE == 1` and `0 ≤ value ≤ 255`; a list requires
`MIN_SIZE > 1`, length within `[MIN_SIZE, MAX_SIZE]` and byte entries. -/
def mkRegisterValue (spec : RegisterSpec) (v : RegValueData) :
    Except NrfError RegisterValue :=
  match v with
  | .noneVal => .ok ⟨spec, v⟩
  | .intVal n =>
    if spec.min_size = 1 ∧ spec.max_size = 1 ∧ n ≤ 255 then .ok ⟨spec, v⟩
    else .error .invalidRegisterValue
  | .listVal l =>
    if 1 < spec.min_size ∧ spec.min_size ≤ l.length ∧ l.length ≤ spec.max_size ∧
        l.all (fun b => b ≤ 255) then .ok ⟨spec, v⟩
    else .error .invalidRegisterValue

/-- `_to_bytes(value)`: an int becomes a singleton byte list, a list is
copied; `None` fails the `isinstance` assert (the string case is omitted). -/
def _to_bytes : RegValueData → Except NrfError (List Nat)
  | .intVal n => if n ≤ 255 then .ok [n] else .error .valueError
  | .listVal l => if l.all (fun b => b ≤ 255) then .ok l else .error .valueError
  | .noneVal => .error .valueError

/-- `_assert_valid_register_and_size(address, size)` as a boolean check. -/
def validRegisterAndSize (address size : Nat) : Bool :=
  address ≤ 0x1D &&
  !(0x18 ≤ address && address ≤ 0x1B) &&
  (1 ≤ size && size ≤ 5) &&
  (if (0x0A ≤ address && address ≤ 0x0B) || address == 0x10
   then 3 ≤ size && size ≤ 5
   else size == 1)

/-- The `REG_STATUS` register spec (address 0x07). -/
def REG_STATUS : RegisterSpec := ⟨"REG_STATUS", 0x07, 1, 1⟩

/-- `NRF24Device._set_register(address, value)`: validate address/size,
convert to bytes, then issue `[0b00100000 | address] + bytes`; byte 0 of the
response is STATUS. -/
def _set_register (regs : Nat → Nat) (address : Nat) (value : RegValueData) :
    Except NrfError (TraceEntry × Nat) :=
  let size := match value with | .listVal l => l.length | _ => 1
  if ¬ validRegisterAndSize address size then .error .invalidAddressOrSize
  else
    match _to_bytes value with
    | .error e => .error e
    | .ok bytes => .ok (.spi ((0b00100000 ||| address) :: bytes), readByte regs 7)

/-- `NRF24Device.get_register(address, size)` at `size = 1` (the only size
used on the verified paths).  For any address other than STATUS it exchanges
`[address, NOP]` and returns `(byte 0, byte 1)`; for STATUS it exchanges the
single NOP byte and returns the status byte twice. -/
def get_register1 (regs : Nat → Nat) (address : Nat) :
    Except NrfError (TraceEntry × Nat × Nat) :=
  if ¬ validRegisterAndSize address 1 then .error .invalidAddressOrSize
  else if address ≠ REG_STATUS.address then
    .ok (.spi [address, _SPI_NOP], readByte regs 7, readByte regs address)
  else
    .ok (.spi [_SPI_NOP], readByte regs 7, readByte regs 7)

/-! ## The batched read path: `NRF24Device.get` -/

/-- One argument of `get()`: a `_Register` subclass or a `_RegisterField`
subclass. -/
inductive GetRequest where
  | reg (r : RegisterSpec)
  | field (f : FieldSpec)
deriving DecidableEq, Repr

instance : Inhabited GetRequest := ⟨.reg REG_STATUS⟩

/-- The register address a request needs. -/
def GetRequest.address : GetRequest → Nat
  | .reg r => r.address
  | .field f => f.register_address

/-- The validity check `get()` runs on a register request:
`r.MIN_SIZE == r.MAX_SIZE == 1`. -/
def validReq : GetRequest → Bool
  | .reg rs => rs.min_size == 1 && rs.max_size == 1
  | .field _ => true

/-- Adding an element to `need_to_fetch_registers` (a Python `set`, modelled
as an insertion-ordered duplicate-free list). -/
def addAddress (l : List Nat) (a : Nat) : List Nat :=
  if a ∈ l then l else l ++ [a]

/-- One step of the first loop of `get()`: check the request (a register must
be single-byte) and add its register address to the needed set. -/
def neededStep (l : List Nat) : GetRequest → Except NrfError (List Nat)
  | .reg rs =>
    if rs.min_size = 1 ∧ rs.max_size = 1 then pure (addAddress l rs.address)
    else throw .variableSizeRegister
  | .field f => pure (addAddress l f.register_address)

/-- The first loop of `get()`: starting from `{REG_STATUS.ADDRESS}`, check
each request and add its register address. -/
def neededAddresses (reqs : List GetRequest) : Except NrfError (List Nat) :=
  reqs.foldlM neededStep [REG_STATUS.address]

/-- `if need_to_fetch_registers != {STATUS}: discard(STATUS)` — STATUS is
implicitly fetched by any other read. -/
def fetchList (needed : List Nat) : List Nat :=
  if needed = [REG_STATUS.address] then needed
  else needed.erase REG_STATUS.address

/-- `values[k] = v` on the Python dict, modelled as a map update. -/
def dictInsert (m : Nat → Option Nat) (k v : Nat) : Nat → Option Nat :=
  fun x => if x = k then some v else m x

/-- One step of the fetch loop of `get()`: for address `a`, store byte 0 of
the exchange under the STATUS key and byte 1 under `a`. -/
def valuesStep (regs : Nat → Nat) (m : Nat → Option Nat) (a : Nat) :
    Nat → Option Nat :=
  dictInsert (dictInsert m REG_STATUS.address (readByte regs 7)) a (readByte regs a)

/-- The fetch loop of `get()`: for each address exchange `[address, NOP]`,
store byte 0 under the STATUS key and byte 1 under the address key. -/
def buildValues (regs : Nat → Nat) (fetch : List Nat) : Nat → Option Nat :=
  fetch.foldl (valuesStep regs) (fun _ => none)

/-- The projection loop of `get()`: a register request yields the stored
byte, a field request extracts its bits from the stored byte.  (The Python
`values[...]` lookup cannot fail on the reachable paths — proved below — so
the `none` case returns a junk 0.) -/
def projectRequest (m : Nat → Option Nat) : GetRequest → Nat
  | .reg r => (m r.address).getD 0
  | .field f => f.get ((m f.register_address).getD 0)

/-- Result of `get()`: a scalar for exactly one request, else a tuple. -/
inductive PyValue where
  | scalar (n : Nat)
  | tuple (l : List Nat)
deriving DecidableEq, Repr

/-- `NRF24Device.get(*fields_or_registers)`. -/
def NRF24Device.get (regs : Nat → Nat) (reqs : List GetRequest) :
    Except NrfError (List TraceEntry × PyValue) := do
  let needed ← neededAddresses reqs
  let fetch := fetchList needed
  let trace := fetch.map (fun a => TraceEntry.spi [a, _SPI_NOP])
  let m := buildValues regs fetch
  let result := reqs.map (projectRequest m)
  match result with
  | [x] => pure (trace, .scalar x)
  | _ => pure (trace, .tuple result)

/-! ## The batched write path: `NRF24Device.set`

`set` may raise *after* some bus transactions were already issued, so its
embedding always returns the trace of the exchanges performed so far next to
the outcome. -/

/-- One argument of `set()`. -/
inductive SetItem where
  | reg (r : RegisterValue)
  | field (f : RegisterField)
  | fieldSet (s : RegisterFieldSet)
deriving DecidableEq, Repr

/-- The first partition loop of `set()`: collect whole-register writes into
the insertion-ordered dict `registers`, failing if an address repeats. -/
def buildRegisters (items : List SetItem) :
    Except NrfError (List (Nat × RegisterValue)) :=
  items.foldlM
    (fun m it =>
      match it with
      | .reg r =>
        if (m.lookup r.spec.address).isSome then throw .registerSpecifiedTwice
        else pure (m ++ [(r.spec.address, r)])
      | _ => pure m)
    []

/-- Replace the value stored under `k` (which `setdefault` put there),
keeping the dict's insertion order. -/
def updateAssoc (m : List (Nat × RegisterFieldSet)) (k : Nat)
    (v : RegisterFieldSet) : List (Nat × RegisterFieldSet) :=
  match m with
  | [] => [(k, v)]
  | (k', v') :: rest =>
    if k' = k then (k', v) :: rest else (k', v') :: updateAssoc rest k v

/-- One step of the second partition loop of `set()`: check the register is
not also written whole, `setdefault` an empty set for the address, and merge
the item into it with `|=`. -/
def insertFieldItem (registers : List (Nat × RegisterValue))
    (m : List (Nat × RegisterFieldSet)) (addr : Nat)
    (ins : RegisterFieldSet → Except NrfError RegisterFieldSet) :
    Except NrfError (List (Nat × RegisterFieldSet)) :=
  if (registers.lookup addr).isSome then .error .registerFieldConflict
  else
    match ins ((m.lookup addr).getD ⟨[]⟩) with
    | .error e => .error e
    | .ok cur' => .ok (updateAssoc m addr cur')

/-- The second partition loop of `set()`: accumulate field writes per target
register address.  A `_RegisterFieldSet` item is identified by
`r.fields[0].REGISTER_ADDRESS` (IndexError on an empty set). -/
def buildFieldSets (registers : List (Nat × RegisterValue))
    (items : List SetItem) :
    Except NrfError (List (Nat × RegisterFieldSet)) :=
  items.foldlM
    (fun m it =>
      match it with
      | .reg _ => pure m
      | .field f =>
        insertFieldItem registers m f.spec.register_address (fun cur => cur.ior f)
      | .fieldSet s =>
        match s.fields with
        | [] => throw .indexError
        | f0 :: _ =>
          insertFieldItem registers m f0.spec.register_address
            (fun cur => cur.iorMany s))
    []

/-- Everything `set()` does before its first bus transaction: the argument
asserts and the two partition loops. -/
def setValidate (items : List SetItem) :
    Except NrfError (List (Nat × RegisterValue) × List (Nat × RegisterFieldSet)) :=
  if items.length < 1 then .error .noArguments
  else
    match buildRegisters items with
    | .error e => .error e
    | .ok rs =>
      match buildFieldSets rs items with
      | .error e => .error e
      | .ok fs => .ok (rs, fs)

/-- The write loop of `_set_registers`: one `_set_register` per entry; the
returned status is the one of the *last* write.  An error aborts the loop,
keeping the trace of the writes already issued. -/
def set_registers_loop (regs : Nat → Nat) :
    List (Nat × RegisterValue) → List TraceEntry × Except NrfError (Option Nat)
  | [] => ([], .ok none)
  | (a, r) :: rest =>
    match _set_register regs a r.value with
    | .error e => ([], .error e)
    | .ok (tx, st) =>
      match set_registers_loop regs rest with
      | (t, .error e) => (tx :: t, .error e)
      | (t, .ok o) => (tx :: t, .ok (some (o.getD st)))

/-- `NRF24Device._set_registers(*registers)`: asserts the addresses are
pairwise distinct, then writes each register. -/
def _set_registers (regs : Nat → Nat) (rs : List (Nat × RegisterValue)) :
    List TraceEntry × Except NrfError (Option Nat) :=
  if (rs.map Prod.fst).Nodup then set_registers_loop regs rs
  else ([], .error .duplicateRegister)

/-- The body of `_set_fields` for one `_RegisterFieldSet`: if the combined
mask is not 0xFF, read the register's current byte and write back
`value | (old & ~mask)` (Python `old_value & ~mask` is `Nat.ldiff old mask`);
otherwise write the combined value directly. -/
def set_one_field_write (regs : Nat → Nat) (rfs : RegisterFieldSet) :
    Except NrfError (List TraceEntry × Nat) :=
  match rfs.fields with
  | [] => .error .indexError
  | _ :: _ =>
    let register_address := rfs.getRegisterAddress
    let mask := rfs.get_mask
    let value := rfs.get_value
    if mask ≠ 0xFF then
      match get_register1 regs register_address with
      | .error e => .error e
      | .ok (tx1, _st, old_value) =>
        match _set_register regs register_address
            (.intVal (value ||| Nat.ldiff old_value mask)) with
        | .error e => .error e
        | .ok (tx2, st) => .ok ([tx1, tx2], st)
    else
      match _set_register regs register_address (.intVal value) with
      | .error e => .error e
      | .ok (tx2, st) => .ok ([tx2], st)

/-- `NRF24Device._set_fields(*register_fields)` restricted to
`_RegisterFieldSet` arguments (the only form `set()` passes). -/
def set_fields_loop (regs : Nat → Nat) :
    List RegisterFieldSet → List TraceEntry × Except NrfError (Option Nat)
  | [] => ([], .ok none)
  | rfs :: rest =>
    match set_one_field_write regs rfs with
    | .error e => ([], .error e)
    | .ok (txs, st) =>
      match set_fields_loop regs rest with
      | (t, .error e) => (txs ++ t, .error e)
      | (t, .ok o) => (txs ++ t, .ok (some (o.getD st)))

/-- `NRF24Device.set(*registers_and_register_fields)`: validate and
partition, write the whole registers, then the field sets; return the STATUS
of the last transaction (field writes take precedence). -/
def NRF24Device.set (regs : Nat → Nat) (items : List SetItem) :
    List TraceEntry × Except NrfError (Option Nat) :=
  match setValidate items with
  | .error e => ([], .error e)
  | .ok (rs, fs) =>
    match _set_registers regs rs with
    | (t1, .error e) => (t1, .error e)
    | (t1, .ok st1) =>
      match set_fields_loop regs (fs.map Prod.snd) with
      | (t2, .error e) => (t1 ++ t2, .error e)
      | (t2, .ok st2) =>
        (t1 ++ t2, .ok (match st2 with | some s => some s | none => st1))

/-! ## Transaction-layer operations -/

/-- `flush_tx_fifo()`: exchange `[0b11100001]`, return STATUS (byte 0). -/
def flush_tx_fifo (regs : Nat → Nat) : List TraceEntry × Nat :=
  ([.spi [0b11100001]], readByte regs 7)

/-- `flush_rx_fifo()`: exchange `[0b11100010]`, return STATUS (byte 0). -/
def flush_rx_fifo (regs : Nat → Nat) : List TraceEntry × Nat :=
  ([.spi [0b11100010]], readByte regs 7)

/-- `_write_payload(command, data)`: assert `1 ≤ len(data) ≤ 32`, exchange
`[command] + data`, return STATUS (byte 0). -/
def _write_payload (regs : Nat → Nat) (command : Nat) (data : List Nat) :
    Except NrfError (List TraceEntry × Nat) :=
  if ¬ (1 ≤ data.length ∧ data.length ≤ 32) then .error .invalidPayload
  else if ¬ data.all (fun b => b ≤ 255) then .error .valueError
  else .ok ([.spi (command :: data)], readByte regs 7)

/-- `write_tx_payload(data)` -/
def write_tx_payload (regs : Nat → Nat) (data : List Nat) :
    Except NrfError (List TraceEntry × Nat) :=
  _write_payload regs 0b10100000 data

/-- `write_ack_payload(pipe, data)` -/
def write_ack_payload (regs : Nat → Nat) (pipe : Nat) (data : List Nat) :
    Except NrfError (List TraceEntry × Nat) :=
  if ¬ pipe ≤ 5 then .error .invalidPayload
  else _write_payload regs (0b10101000 ||| pipe) data

/-- `write_tx_payload_no_ack(data)` -/
def write_tx_payload_no_ack (regs : Nat → Nat) (data : List Nat) :
    Except NrfError (List TraceEntry × Nat) :=
  _write_payload regs 0b10110000 data

/-- `read_rx_payload(num_bytes)`: assert `1 ≤ num_bytes ≤ 32`, exchange
`[0b01100001] + [0] * num_bytes` (note: the placeholder byte here is 0, not
the NOP 0xFF) and return STATUS (byte 0).  The payload bytes come from the
RX FIFO, which is outside the register-state model, so only the status is
returned here. -/
def read_rx_payload (regs : Nat → Nat) (num_bytes : Nat) :
    Except NrfError (List TraceEntry × Nat) :=
  if ¬ (1 ≤ num_bytes ∧ num_bytes ≤ 32) then .error .invalidPayload
  else .ok ([.spi (0b01100001 :: List.replicate num_bytes 0)], readByte regs 7)

/-- `get_rx_payload_size()`.  The source body is
`data = spi.xfer2([0b01100000, _SPI_NOP])`: it reads the module-level global
name `spi` — which is never defined — instead of `self._spi`, so the call
raises `NameError` before any bus exchange takes place. -/
def get_rx_payload_size : List TraceEntry × Except NrfError (Nat × Nat) :=
  ([], .error .nameError)

/-- `reuse_tx_payload()`.  The source body is
`status_in_list = spi.xfer2([0b11100011])`: like `get_rx_payload_size` it
reads the undefined module-level global `spi` instead of `self._spi`, so the
call raises `NameError` before any bus exchange takes place. -/
def reuse_tx_payload : List TraceEntry × Except NrfError Nat :=
  ([], .error .nameError)

/-! ## The reset sequencer: `NRF24Device.reset_to_default` -/

/-- Sequencing of trace-producing steps: an error stops the sequence but
keeps the trace produced so far (Python exceptions do not undo I/O). -/
def thenDo (acc : List TraceEntry × Except NrfError Unit)
    (next : Unit → List TraceEntry × Except NrfError Unit) :
    List TraceEntry × Except NrfError Unit :=
  match acc with
  | (t, .error e) => (t, .error e)
  | (t, .ok _) =>
    match next () with
    | (t2, r) => (t ++ t2, r)

/-- A `set()` call whose returned status is discarded (as in
`reset_to_default`). -/
def setAsStep (regs : Nat → Nat) (items : List SetItem) :
    List TraceEntry × Except NrfError Unit :=
  match NRF24Device.set regs items with
  | (t, .error e) => (t, .error e)
  | (t, .ok _) => (t, .ok ())

/-- The field-set the reset loop builds for one catalog register: every field
with `"W" in rw` whose name is not `"Reserved"`/`"Obsolete"`, looked up as a
module variable (`getattr`) and constructed at its reset value. -/
def resetFieldValues (r : RegisterInfo) : Except NrfError RegisterFieldSet :=
  r.fields.foldlM
    (fun rfs f =>
      if rwHasW f.rw && f.name != "Reserved" && f.name != "Obsolete" then
        match moduleAttr f.name with
        | .error e => .error e
        | .ok spec =>
          match mkRegisterField spec f.reset_value with
          | .error e => .error e
          | .ok fv => rfs.ior fv
      else pure rfs)
    ⟨[]⟩

/-- One iteration of the bulk loop of `reset_to_default`: build the reset
field-set of the register and `set()` it if it is non-empty. -/
def resetStep (regs : Nat → Nat) (r : RegisterInfo) :
    List TraceEntry × Except NrfError Unit :=
  match resetFieldValues r with
  | .error e => ([], .error e)
  | .ok rfs =>
    if rfs.get_num_fields ≠ 0 then setAsStep regs [.fieldSet rfs]
    else ([], .ok ())

/-- The bulk loop of `reset_to_default` over the catalog. -/
def resetLoop (regs : Nat → Nat) :
    List RegisterInfo → List TraceEntry × Except NrfError Unit
  | [] => ([], .ok ())
  | r :: rest => thenDo (resetStep regs r) (fun _ => resetLoop regs rest)

/-- Field specs of the module variables referenced by name in the source
(write-one-to-clear status bits and the interrupt masks). -/
def RX_DR : FieldSpec := ⟨"STATUS", 0x07, "RX_DR", 6, 1, 0, "R/W"⟩

/-- `TX_DS` (STATUS bit 5). -/
def TX_DS : FieldSpec := ⟨"STATUS", 0x07, "TX_DS", 5, 1, 0, "R/W"⟩

/-- `MAX_RT` (STATUS bit 4). -/
def MAX_RT : FieldSpec := ⟨"STATUS", 0x07, "MAX_RT", 4, 1, 0, "R/W"⟩

/-- `MASK_RX_DR` (CONFIG bit 6). -/
def MASK_RX_DR : FieldSpec := ⟨"CONFIG", 0x00, "MASK_RX_DR", 6, 1, 0, "R/W"⟩

/-- `MASK_TX_DS` (CONFIG bit 5). -/
def MASK_TX_DS : FieldSpec := ⟨"CONFIG", 0x00, "MASK_TX_DS", 5, 1, 0, "R/W"⟩

/-- `MASK_MAX_RT` (CONFIG bit 4). -/
def MASK_MAX_RT : FieldSpec := ⟨"CONFIG", 0x00, "MASK_MAX_RT", 4, 1, 0, "R/W"⟩

/-- `RX_DR(1) | TX_DS(1) | MAX_RT(1)`: construct the three write-one-to-clear
bits at value 1 and merge them with `|`. -/
def w1cFieldSet : Except NrfError RegisterFieldSet := do
  let a ← mkRegisterField RX_DR 1
  let b ← mkRegisterField TX_DS 1
  let c ← mkRegisterField MAX_RT 1
  let s ← RegisterFieldSet.ior ⟨[a]⟩ b
  s.ior c

/-- Register specs of the module variables referenced by name in
`reset_to_default`. -/
def REG_RX_ADDR_P0 : RegisterSpec := ⟨"REG_RX_ADDR_P0", 0x0A, 3, 5⟩

/-- `REG_RX_ADDR_P1` -/
def REG_RX_ADDR_P1 : RegisterSpec := ⟨"REG_RX_ADDR_P1", 0x0B, 3, 5⟩

/-- `REG_RX_ADDR_P2` -/
def REG_RX_ADDR_P2 : RegisterSpec := ⟨"REG_RX_ADDR_P2", 0x0C, 1, 1⟩

/-- `REG_RX_ADDR_P3` -/
def REG_RX_ADDR_P3 : RegisterSpec := ⟨"REG_RX_ADDR_P3", 0x0D, 1, 1⟩

/-- `REG_RX_ADDR_P4` -/
def REG_RX_ADDR_P4 : RegisterSpec := ⟨"REG_RX_ADDR_P4", 0x0E, 1, 1⟩

/-- `REG_RX_ADDR_P5` -/
def REG_RX_ADDR_P5 : RegisterSpec := ⟨"REG_RX_ADDR_P5", 0x0F, 1, 1⟩

/-- `REG_TX_ADDR` -/
def REG_TX_ADDR : RegisterSpec := ⟨"REG_TX_ADDR", 0x10, 3, 5⟩

/-- `self.set(REG_X(value))`: construct the register value (running the
`_Register.__init__` checks) and `set()` it. -/
def setRegisterValueStep (regs : Nat → Nat) (spec : RegisterSpec)
    (v : RegValueData) : List TraceEntry × Except NrfError Unit :=
  match mkRegisterValue spec v with
  | .error e => ([], .error e)
  | .ok rv => setAsStep regs [.reg rv]

/-- `NRF24Device.reset_to_default()`: CE low, flush both FIFOs, reset every
catalog register's writable fields, explicitly write 1 to the three
write-one-to-clear status bits, then write the documented default
addresses. -/
def reset_to_default (regs : Nat → Nat) : List TraceEntry × Except NrfError Unit :=
  thenDo ([.gpioEnableLow] ++ (flush_tx_fifo regs).1 ++ (flush_rx_fifo regs).1, .ok ())
    (fun _ => thenDo (resetLoop regs _REGISTERS)
    (fun _ => thenDo
      (match w1cFieldSet with
       | .error e => ([], .error e)
       | .ok s => setAsStep regs [.fieldSet s])
    (fun _ => thenDo (setRegisterValueStep regs REG_RX_ADDR_P0 (.listVal [0xE7, 0xE7, 0xE7, 0xE7, 0xE7]))
    (fun _ => thenDo (setRegisterValueStep regs REG_RX_ADDR_P1 (.listVal [0xC2, 0xC2, 0xC2, 0xC2, 0xC2]))
    (fun _ => thenDo (setRegisterValueStep regs REG_RX_ADDR_P2 (.intVal 0xC3))
    (fun _ => thenDo (setRegisterValueStep regs REG_RX_ADDR_P3 (.intVal 0xC4))
    (fun _ => thenDo (setRegisterValueStep regs REG_RX_ADDR_P4 (.intVal 0xC5))
    (fun _ => thenDo (setRegisterValueStep regs REG_RX_ADDR_P5 (.intVal 0xC6))
    (fun _ => setRegisterValueStep regs REG_TX_ADDR (.listVal [0xE7, 0xE7, 0xE7, 0xE7, 0xE7]))))))))))

/-! ## The interrupt-wait coordinator

`_internal_wait_for_irq_low` polls the six mask/status fields in a loop and
sleeps on the caller's condition variable between polls.  One loop iteration
is driven by a `WaitStep` oracle record: the register state the poll
observes (or the transport error it raises), the elapsed wall-clock time at
the check, and whether another thread has set the cancellation flag by the
time the loop condition is evaluated. -/

/-- Oracle for one iteration of the wait loop. -/
structure WaitStep where
  chip : Except NrfError (Nat → Nat)
  elapsed : Nat
  cancelledSeen : Bool

/-- How one pass of the wait loop ends. -/
inductive WaitLoopExit where
  /-- The loop `break`s: condition satisfied, timed out, or cancelled. -/
  | finished
  /-- `self.get(...)` raised while polling. -/
  | raised (e : NrfError)
  /-- The oracle is exhausted with the thread still blocked in the loop. -/
  | stillWaiting
deriving DecidableEq, Repr

/-- The polling loop of `_internal_wait_for_irq_low`: read the six fields via
`get`, break if an unmasked condition is set, the timeout elapsed, or the
wait was cancelled; otherwise sleep on the condition variable and repeat. -/
def waitLoop (timeout : Option Nat) : List WaitStep → WaitLoopExit
  | [] => .stillWaiting
  | s :: rest =>
    match s.chip with
    | .error e => .raised e
    | .ok regs =>
      let mask_rx_dr := MASK_RX_DR.get (readByte regs 0)
      let mask_tx_ds := MASK_TX_DS.get (readByte regs 0)
      let mask_max_rt := MASK_MAX_RT.get (readByte regs 0)
      let rx_dr := RX_DR.get (readByte regs 7)
      let tx_ds := TX_DS.get (readByte regs 7)
      let max_rt := MAX_RT.get (readByte regs 7)
      let done : Bool :=
        (rx_dr != 0 && mask_rx_dr == 0) ||
        (tx_ds != 0 && mask_tx_ds == 0) ||
        (max_rt != 0 && mask_max_rt == 0) ||
        (match timeout with | some t => decide (t ≤ s.elapsed) | none => false) ||
        s.cancelledSeen
      if done then .finished else waitLoop timeout rest

/-- `_internal_wait_for_irq_low`: register the falling-edge callback, run the
loop, and in the `finally` remove the callback — on the break path and on the
raise path alike.  The second component is whether the hardware callback is
still registered when control leaves (or is suspended in) the function. -/
def _internal_wait_for_irq_low (timeout : Option Nat) (steps : List WaitStep) :
    WaitLoopExit × Bool :=
  match waitLoop timeout steps with
  | .finished => (.finished, false)
  | .raised e => (.raised e, false)
  | .stillWaiting => (.stillWaiting, true)

/-- Device wait bookkeeping after the call: is the falling-edge callback
still registered, and is `self._wait_info_cancellable` still set. -/
structure WaitEndState where
  callbackRegistered : Bool
  waitInfoSet : Bool
deriving DecidableEq, Repr

/-- `wait_for_irq_low_cancellable(condition_variable, timeout)`: asserts no
wait is active, stores the wait record in `self._wait_info_cancellable`, runs
the internal wait, and clears `self._wait_info_cancellable` afterwards — but
that clearing line is *not* in a `try/finally`, so it only runs on the normal
return path: if the internal wait raises, the error propagates with the wait
record still set. -/
def wait_for_irq_low_cancellable (timeout : Option Nat) (steps : List WaitStep) :
    WaitLoopExit × WaitEndState :=
  match _internal_wait_for_irq_low timeout steps with
  | (.finished, cb) => (.finished, ⟨cb, false⟩)
  | (.raised e, cb) => (.raised e, ⟨cb, true⟩)
  | (.stillWaiting, cb) => (.stillWaiting, ⟨cb, true⟩)

/-! ## Definitions used to state the verified properties -/

/-- Abstract classification of a trace entry by command byte, used to state
ordering claims about the reset sequence. -/
inductive BusOp where
  | enableLow
  | enableHigh
  | flushTx
  | flushRx
  /-- `W_REGISTER` (`0b001AAAAA`) of register `a`. -/
  | writeReg (a : Nat)
  /-- `R_REGISTER` (`0b000AAAAA`) of register `a`, padded with one NOP. -/
  | readReg (a : Nat)
  /-- A bare NOP exchange (the STATUS branch of `get_register`). -/
  | nop
  | other
deriving DecidableEq, Repr

/-- Classify one trace entry by its command byte. -/
def classify : TraceEntry → BusOp
  | .gpioEnableLow => .enableLow
  | .gpioEnableHigh => .enableHigh
  | .spi [0b11100001] => .flushTx
  | .spi [0b11100010] => .flushRx
  | .spi [0xFF] => .nop
  | .spi (b :: rest) =>
    if 0x20 ≤ b ∧ b ≤ 0x3F then .writeReg (b - 0x20)
    else if b ≤ 0x1F ∧ rest = [0xFF] then .readReg b
    else .other
  | .spi [] => .other

/-- All requests of a `get()` call pass its register-size assert. -/
def ValidReqs (reqs : List GetRequest) : Prop :=
  ∀ r ∈ reqs, validReq r = true

instance (reqs : List GetRequest) : Decidable (ValidReqs reqs) :=
  List.decidableBAll _ reqs

/-- The value `get()` produces for one request against a fixed register
state: the register byte for a register request, the extracted field bits
for a field request. -/
def scalarRead (regs : Nat → Nat) : GetRequest → Nat
  | .reg r => readByte regs r.address
  | .field f => f.get (readByte regs f.register_address)

/-- The needed-addresses accumulation of `get()` without the interleaved
validation (they agree when all requests are valid). -/
def neededPure (reqs : List GetRequest) : List Nat :=
  reqs.foldl (fun l r => addAddress l r.address) [REG_STATUS.address]

/-- The result-shaping rule of `get()`: one request yields a scalar,
otherwise a tuple. -/
def shape : List Nat → PyValue
  | [x] => .scalar x
  | l => .tuple l

/-- Invariant of the reachable `_RegisterFieldSet`s: all members are
well-formed runtime field values, no two members share a field name, and all
members target the same register. -/
def FieldsInv (l : List RegisterField) : Prop :=
  (∀ f ∈ l, f.WF) ∧
  List.Pairwise (fun a b => a.spec.field_name ≠ b.spec.field_name) l ∧
  ∀ f ∈ l, ∀ g ∈ l, f.spec.register_address = g.spec.register_address

instance (l : List RegisterField) : Decidable (FieldsInv l) := by
  unfold FieldsInv
  infer_instance

/-! ## Catalog facts (checked by evaluation) -/

set_option maxRecDepth 100000
set_option maxHeartbeats 4000000

/-- Every generated field fits in one byte. -/
theorem catalog_mask_le : ∀ s ∈ moduleFieldSpecs, _get_mask s ≤ 255 := by decide

/-- Within one register, differently-named generated fields have disjoint
masks (`_verify_registers` checks the stronger partition property). -/
theorem catalog_disjoint :
    ∀ f ∈ moduleFieldSpecs, ∀ g ∈ moduleFieldSpecs,
      f.register_address = g.register_address → f.field_name ≠ g.field_name →
      _get_mask f &&& _get_mask g = 0 := by decide

/-- Every generated field lives in a valid single-byte register. -/
theorem catalog_addr_valid :
    ∀ s ∈ moduleFieldSpecs, validRegisterAndSize s.register_address 1 = true := by
  decide

/-! ## Bitwise helper lemmas -/

/-- Absorption: OR-ing anything into `m` cannot clear a bit of `m`. -/
theorem or_and_self_eq (x m : Nat) : (m ||| x) &&& m = m := by
  apply Nat.eq_of_testBit_eq
  intro i
  simp only [Nat.testBit_and, Nat.testBit_or]
  cases m.testBit i <;> simp

/-- A bit set in a number `≤ 255` has index below 8. -/
theorem testBit_lt_8 {m i : Nat} (hm : m ≤ 255) (h : m.testBit i = true) :
    i < 8 := by
  by_contra h8
  have hlt : m < 2 ^ i := by
    calc m ≤ 255 := hm
    _ < 2 ^ 8 := by norm_num
    _ ≤ 2 ^ i := Nat.pow_le_pow_right (by norm_num) (by omega)
  rw [Nat.testBit_lt_two_pow hlt] at h
  exact Bool.false_ne_true h

/-- A value whose set bits all lie under a one-byte mask satisfies the
`value & ~mask == 0` invariant stated over bytes. -/
theorem under_mask_and_compl {v m : Nat}
    (hu : ∀ i, v.testBit i = true → m.testBit i = true) (hm : m ≤ 255) :
    v &&& (255 ^^^ m) = 0 := by
  apply Nat.eq_of_testBit_eq
  intro i
  simp only [Nat.testBit_and, Nat.testBit_xor, Nat.zero_testBit]
  cases hvb : v.testBit i
  · simp
  · have hmb := hu i hvb
    have hi : i < 8 := testBit_lt_8 hm hmb
    have h255 : (255 : Nat).testBit i = true := by
      have h : (255 : Nat) = 2 ^ 8 - 1 := by norm_num
      rw [h, Nat.testBit_two_pow_sub_one]
      simpa using hi
    simp [hmb, h255]

/-- Bits outside the mask of the read-modify-write byte
`v ||| (x & ~m)` are exactly the bits of the old byte `x`, provided the
combined value `v` has no bits outside the mask `m`. -/
theorem or_ldiff_testBit_outside {v m : Nat} (x i : Nat)
    (hu : ∀ j, v.testBit j = true → m.testBit j = true)
    (hbit : m.testBit i = false) :
    (v ||| Nat.ldiff x m).testBit i = x.testBit i := by
  have hvb : v.testBit i = false := by
    cases h : v.testBit i
    · rfl
    · exact absurd (hu i h) (by simp [hbit])
  rw [Nat.testBit_or, hvb, Nat.testBit_ldiff, hbit]
  simp

/-- A value whose set bits lie under a one-byte mask is itself a byte. -/
theorem under_mask_le_255 {v m : Nat}
    (hu : ∀ i, v.testBit i = true → m.testBit i = true) (hm : m ≤ 255) :
    v ≤ 255 := by
  have h : v < 2 ^ 8 := by
    apply Nat.lt_pow_two_of_testBit
    intro i hi
    cases hvb : v.testBit i
    · rfl
    · exact absurd (testBit_lt_8 hm (hu i hvb)) (by omega)
  omega

/-! ## C10: `get()` with zero requests -/

/-- C10: calling `get()` with zero requests does not fail: STATUS is then the
sole needed address, so the driver issues exactly one explicit STATUS read
and returns the empty tuple. -/
theorem C10_get_no_requests (regs : Nat → Nat) :
    NRF24Device.get regs [] =
      .ok ([.spi [REG_STATUS.address, _SPI_NOP]], .tuple []) := rfl

/-! ## C9: the transaction layer -/

/-- C9 (code bug): the flush and payload operations exchange exactly one
byte string of length `1 + N` (command byte plus payload/placeholder bytes —
`read_rx_payload` pads with 0, not 0xFF) and return byte 0 of the response,
the STATUS register; but `get_rx_payload_size()` and `reuse_tx_payload()`
reference the undefined module-level global `spi` instead of `self._spi`,
so both raise `NameError` without touching the device's transport. -/
theorem C9_transaction_layer (regs : Nat → Nat) :
    flush_tx_fifo regs = ([.spi [0b11100001]], readByte regs 7) ∧
    flush_rx_fifo regs = ([.spi [0b11100010]], readByte regs 7) ∧
    write_tx_payload regs [42] = .ok ([.spi [0b10100000, 42]], readByte regs 7) ∧
    read_rx_payload regs 1 = .ok ([.spi [0b01100001, 0]], readByte regs 7) ∧
    get_rx_payload_size = ([], .error .nameError) ∧
    reuse_tx_payload = ([], .error .nameError) :=
  ⟨rfl, rfl, rfl, rfl, rfl, rfl⟩

/-! ## C8: exit paths of the cancellable wait -/

/-- The polling `get` of `_internal_wait_for_irq_low` matches the direct
field extraction used in `waitLoop`: one CONFIG read serves all six fields
(STATUS comes from byte 0 of that exchange). -/
theorem get_poll_fields (regs : Nat → Nat) :
    NRF24Device.get regs
      [.field MASK_RX_DR, .field MASK_TX_DS, .field MASK_MAX_RT,
       .field RX_DR, .field TX_DS, .field MAX_RT] =
      .ok ([.spi [0x00, _SPI_NOP]],
        .tuple [MASK_RX_DR.get (readByte regs 0), MASK_TX_DS.get (readByte regs 0),
                MASK_MAX_RT.get (readByte regs 0), RX_DR.get (readByte regs 7),
                TX_DS.get (readByte regs 7), MAX_RT.get (readByte regs 7)]) := rfl

/-- C8 (code bug): on the satisfied, timed-out and cancelled exits the
falling-edge callback is unregistered *and* the active-wait record is
cleared; but when polling raises, only the callback removal (which is inside
the `try/finally`) runs — the error propagates with
`self._wait_info_cancellable` still set, because the clearing line of
`wait_for_irq_low_cancellable` is not in a `finally`. -/
theorem C8_wait_exit_cleanup :
    (wait_for_irq_low_cancellable none [⟨.error .spiError, 0, false⟩]
      = (.raised .spiError, ⟨false, true⟩)) ∧
    (wait_for_irq_low_cancellable none
        [⟨.ok (fun a => if a = 7 then 0x40 else 0), 0, false⟩]
      = (.finished, ⟨false, false⟩)) ∧
    (wait_for_irq_low_cancellable (some 1) [⟨.ok (fun _ => 0), 1, false⟩]
      = (.finished, ⟨false, false⟩)) ∧
    (wait_for_irq_low_cancellable none [⟨.ok (fun _ => 0), 0, true⟩]
      = (.finished, ⟨false, false⟩)) :=
  ⟨rfl, rfl, rfl, rfl⟩

/-! ## C6: field value construction -/

/-- C6: `maxValue = 2^width - 1`; on a writable spec, a value above the
maximum fails with the range error and the maximum itself succeeds; on a
read-only spec any supplied value fails with the write-not-permitted error
(checked before the range, so nothing is ever partially constructed). -/
theorem C6_field_value_range (f : FieldSpec) :
    f.get_max_value = 2 ^ f.num_bits - 1 ∧
    (rwHasW f.rw = true →
      ∀ v, f.get_max_value < v → mkRegisterField f v = .error .rangeError) ∧
    (rwHasW f.rw = true →
      mkRegisterField f f.get_max_value = .ok ⟨f, f.get_max_value⟩) ∧
    (rwHasW f.rw = false →
      ∀ v, mkRegisterField f v = .error .writeNotPermittedError) := by
  refine ⟨?_, ?_, ?_, ?_⟩
  · simp [FieldSpec.get_max_value, Nat.shiftLeft_eq]
  · intro hw v hv
    simp [mkRegisterField, hw, Nat.not_le.mpr hv]
  · intro hw
    simp [mkRegisterField, hw]
  · intro hw v
    simp [mkRegisterField, hw]

/-- Witness for C6 at the 4-bit writable field `ARD` and the read-only field
`TX_FULL`. -/
theorem C6_witness :
    mkRegisterField ⟨"SETUP_RETR", 0x04, "ARD", 4, 4, 0, "R/W"⟩ 16
        = .error .rangeError ∧
    mkRegisterField ⟨"SETUP_RETR", 0x04, "ARD", 4, 4, 0, "R/W"⟩ 15
        = .ok ⟨⟨"SETUP_RETR", 0x04, "ARD", 4, 4, 0, "R/W"⟩, 15⟩ ∧
    mkRegisterField ⟨"STATUS", 0x07, "TX_FULL", 0, 1, 0, "R"⟩ 1
        = .error .writeNotPermittedError := by
  obtain ⟨-, h2, h3, -⟩ :=
    C6_field_value_range ⟨"SETUP_RETR", 0x04, "ARD", 4, 4, 0, "R/W"⟩
  obtain ⟨-, -, -, g4⟩ :=
    C6_field_value_range ⟨"STATUS", 0x07, "TX_FULL", 0, 1, 0, "R"⟩
  exact ⟨h2 (by decide) 16 (by decide), h3 (by decide), g4 (by decide) 1⟩

/-! ## The read path: lemmas about `get` -/

/-- Membership after a set insertion. -/
theorem mem_addAddress {x a : Nat} {l : List Nat} :
    x ∈ addAddress l a ↔ x ∈ l ∨ x = a := by
  unfold addAddress
  split
  · rename_i h
    exact ⟨Or.inl, fun h' => h'.elim id (fun hx => hx ▸ h)⟩
  · simp

/-- Set insertion preserves distinctness. -/
theorem nodup_addAddress {l : List Nat} {a : Nat} (h : l.Nodup) :
    (addAddress l a).Nodup := by
  unfold addAddress
  split
  · exact h
  · rename_i hmem
    exact h.append (List.nodup_singleton a) (by simpa using hmem)

/-- With all requests valid, the validating fold of `get()` computes the
plain needed-addresses fold. -/
theorem neededAddresses_go (reqs : List GetRequest) (init : List Nat)
    (h : ∀ r ∈ reqs, validReq r = true) :
    reqs.foldlM neededStep init =
      .ok (reqs.foldl (fun l r => addAddress l r.address) init) := by
  induction reqs generalizing init with
  | nil => rfl
  | cons r rest ih =>
    have hr := h r (by simp)
    have hrest : ∀ x ∈ rest, validReq x = true := fun x hx => h x (by simp [hx])
    cases r with
    | reg rs =>
      have h1 : rs.min_size = 1 ∧ rs.max_size = 1 := by
        simpa [validReq] using hr
      simp only [List.foldlM, neededStep, if_pos h1, List.foldl]
      exact ih _ hrest
    | field f =>
      simp only [List.foldlM, neededStep, List.foldl]
      exact ih _ hrest

/-- `neededAddresses` agrees with `neededPure` on valid requests. -/
theorem neededAddresses_eq (reqs : List GetRequest) (h : ValidReqs reqs) :
    neededAddresses reqs = .ok (neededPure reqs) :=
  neededAddresses_go reqs _ h

/-- Membership in the pure needed-addresses fold. -/
theorem mem_neededPure_go (reqs : List GetRequest) (init : List Nat) (x : Nat) :
    x ∈ reqs.foldl (fun l r => addAddress l r.address) init ↔
      x ∈ init ∨ ∃ r ∈ reqs, r.address = x := by
  induction reqs generalizing init with
  | nil => simp
  | cons r rest ih =>
    simp only [List.foldl, ih, mem_addAddress]
    constructor
    · rintro (( h | h) | h)
      · exact Or.inl h
      · exact Or.inr ⟨r, by simp, h.symm⟩
      · obtain ⟨r', hr', hx⟩ := h
        exact Or.inr ⟨r', by simp [hr'], hx⟩
    · rintro (h | ⟨r', hr', hx⟩)
      · exact Or.inl (Or.inl h)
      · rcases List.mem_cons.mp hr' with h' | h'
        · exact Or.inl (Or.inr (h' ▸ hx.symm))
        · exact Or.inr ⟨r', h', hx⟩

/-- `x` is needed iff it is STATUS or the address of some request. -/
theorem mem_neededPure (reqs : List GetRequest) (x : Nat) :
    x ∈ neededPure reqs ↔
      x = REG_STATUS.address ∨ ∃ r ∈ reqs, r.address = x := by
  unfold neededPure
  rw [mem_neededPure_go]
  simp

/-- The needed-addresses list is duplicate-free. -/
theorem nodup_neededPure (reqs : List GetRequest) : (neededPure reqs).Nodup := by
  unfold neededPure
  generalize hinit : [REG_STATUS.address] = init
  have h : init.Nodup := by rw [← hinit]; exact List.nodup_singleton _
  clear hinit
  induction reqs generalizing init with
  | nil => exact h
  | cons r rest ih => exact ih _ (nodup_addAddress h)

/-- The needed set is exactly `{STATUS}` iff every request targets STATUS. -/
theorem neededPure_eq_status_iff (reqs : List GetRequest) :
    neededPure reqs = [REG_STATUS.address] ↔
      ∀ r ∈ reqs, r.address = REG_STATUS.address := by
  constructor
  · intro h r hr
    by_contra hne
    have hmem : r.address ∈ neededPure reqs :=
      (mem_neededPure reqs r.address).mpr (Or.inr ⟨r, hr, rfl⟩)
    rw [h] at hmem
    simp at hmem
    exact hne hmem
  · intro h
    unfold neededPure
    induction reqs with
    | nil => rfl
    | cons r rest ih =>
      have hr : r.address = REG_STATUS.address := h r (by simp)
      simp only [List.foldl, addAddress, hr]
      rw [if_pos (by simp)]
      exact ih (fun x hx => h x (by simp [hx]))

/-- Value of the fetch-loop dict: every fetched address maps to its register
byte, and STATUS is present as soon as anything was fetched. -/
theorem buildValues_go (regs : Nat → Nat) (fetch : List Nat)
    (m : Nat → Option Nat) (a : Nat) :
    (fetch.foldl (valuesStep regs) m) a =
      if a ∈ fetch ∨ (a = REG_STATUS.address ∧ fetch ≠ []) then
        some (readByte regs a)
      else m a := by
  induction fetch generalizing m with
  | nil => simp
  | cons b rest ih =>
    simp only [List.foldl, ih]
    by_cases h1 : a ∈ rest ∨ (a = REG_STATUS.address ∧ rest ≠ [])
    · rw [if_pos h1, if_pos]
      rcases h1 with h | ⟨h7, -⟩
      · exact Or.inl (by simp [h])
      · exact Or.inr ⟨h7, by simp⟩
    · rw [if_neg h1]
      by_cases hb : a = b
      · subst hb
        simp [valuesStep, dictInsert]
      · by_cases h7 : a = REG_STATUS.address
        · rw [if_pos (Or.inr ⟨h7, by simp⟩)]
          simp only [valuesStep, dictInsert, if_neg hb, h7]
          simp only [REG_STATUS]
          by_cases hb7 : (7 : Nat) = b
          · rw [if_pos hb7, hb7]
          · rw [if_neg hb7, if_pos trivial]
        · rw [if_neg]
          · simp [valuesStep, dictInsert, hb, h7]
          · rintro (h | ⟨h, -⟩)
            · rcases List.mem_cons.mp h with h' | h'
              · exact hb h'
              · exact h1 (Or.inl h')
            · exact h7 h

/-- The fetch-loop dict at a needed address. -/
theorem buildValues_eq (regs : Nat → Nat) (fetch : List Nat) (a : Nat)
    (h : a ∈ fetch ∨ (a = REG_STATUS.address ∧ fetch ≠ [])) :
    buildValues regs fetch a = some (readByte regs a) := by
  unfold buildValues
  rw [buildValues_go, if_pos h]

/-- Each request's address is covered by the fetch list (possibly through
the implicit STATUS byte). -/
theorem request_covered (reqs : List GetRequest) (r : GetRequest)
    (hr : r ∈ reqs) :
    r.address ∈ fetchList (neededPure reqs) ∨
      (r.address = REG_STATUS.address ∧ fetchList (neededPure reqs) ≠ []) := by
  unfold fetchList
  by_cases hs : neededPure reqs = [REG_STATUS.address]
  · rw [if_pos hs, hs]
    have := (neededPure_eq_status_iff reqs).mp hs r hr
    simp [this]
  · rw [if_neg hs]
    have hmem : r.address ∈ neededPure reqs :=
      (mem_neededPure reqs _).mpr (Or.inr ⟨r, hr, rfl⟩)
    by_cases h7 : r.address = REG_STATUS.address
    · right
      refine ⟨h7, ?_⟩
      intro hnil
      apply hs
      have h7m : REG_STATUS.address ∈ neededPure reqs :=
        (mem_neededPure reqs _).mpr (Or.inl rfl)
      have hn := nodup_neededPure reqs
      have hlen : (neededPure reqs).length - 1 = 0 := by
        rw [← List.length_erase_of_mem h7m, hnil]
        rfl
      have hpos : 0 < (neededPure reqs).length := List.length_pos.mpr
        (List.ne_nil_of_mem h7m)
      have hone : (neededPure reqs).length = 1 := by omega
      obtain ⟨x, hx⟩ := List.length_eq_one.mp hone
      rw [hx] at h7m
      simp at h7m
      rw [hx, h7m]
    · left
      exact (List.Nodup.mem_erase_iff (nodup_neededPure reqs)).mpr ⟨h7, hmem⟩

/-- The projection of a request equals the direct single-request read. -/
theorem project_eq_scalarRead (regs : Nat → Nat) (reqs : List GetRequest)
    (r : GetRequest) (hr : r ∈ reqs) :
    projectRequest (buildValues regs (fetchList (neededPure reqs))) r =
      scalarRead regs r := by
  have hcov := request_covered reqs r hr
  cases r with
  | reg rr =>
    have hcov' : rr.address ∈ fetchList (neededPure reqs) ∨
        (rr.address = REG_STATUS.address ∧ fetchList (neededPure reqs) ≠ []) := by
      simpa [GetRequest.address] using hcov
    simp only [projectRequest, scalarRead]
    rw [buildValues_eq regs _ _ hcov']
    rfl
  | field f =>
    have hcov' : f.register_address ∈ fetchList (neededPure reqs) ∨
        (f.register_address = REG_STATUS.address ∧ fetchList (neededPure reqs) ≠ []) := by
      simpa [GetRequest.address] using hcov
    simp only [projectRequest, scalarRead]
    rw [buildValues_eq regs _ _ hcov']
    rfl

/-- Evaluation of `get()` on valid requests: one read per fetched address and
the per-request projections, shaped as scalar or tuple. -/
theorem get_eq_scalarRead (regs : Nat → Nat) (reqs : List GetRequest)
    (hv : ValidReqs reqs) :
    NRF24Device.get regs reqs =
      .ok ((fetchList (neededPure reqs)).map (fun a => .spi [a, _SPI_NOP]),
           shape (reqs.map (scalarRead regs))) := by
  unfold NRF24Device.get
  rw [neededAddresses_eq reqs hv]
  have hmap : reqs.map (projectRequest (buildValues regs (fetchList (neededPure reqs)))) =
      reqs.map (scalarRead regs) :=
    List.map_congr_left (fun r hr => project_eq_scalarRead regs reqs r hr)
  show Except.bind _ _ = _
  simp only [Except.bind]
  rw [hmap]
  cases hres : reqs.map (scalarRead regs) with
  | nil =>
    simp only [shape]
    rfl
  | cons x rest =>
    cases rest with
    | nil =>
      simp only [shape]
      rfl
    | cons y t =>
      simp only [shape]
      rfl

/-! ## C2: one read transaction per distinct needed address -/

/-- C2: `get()` issues exactly one `[address, NOP]` read per element of a
duplicate-free fetch list; an address is fetched iff it is a non-STATUS
address of some request — except that when every request targets STATUS (or
there are none), the fetch list is exactly the explicit STATUS read. -/
theorem C2_one_read_per_address (regs : Nat → Nat) (reqs : List GetRequest)
    (hv : ValidReqs reqs) :
    ∃ (fetch : List Nat) (outs : PyValue),
      NRF24Device.get regs reqs =
        .ok (fetch.map (fun a => .spi [a, _SPI_NOP]), outs) ∧
      fetch.Nodup ∧
      (∀ a, a ∈ fetch ↔
        (if ∃ r ∈ reqs, r.address ≠ REG_STATUS.address
         then a ≠ REG_STATUS.address ∧ ∃ r ∈ reqs, r.address = a
         else a = REG_STATUS.address)) := by
  refine ⟨fetchList (neededPure reqs), shape (reqs.map (scalarRead regs)),
    get_eq_scalarRead regs reqs hv, ?_, ?_⟩
  · unfold fetchList
    split
    · exact nodup_neededPure reqs
    · exact (nodup_neededPure reqs).erase _
  · intro a
    by_cases hc : ∃ r ∈ reqs, r.address ≠ REG_STATUS.address
    · rw [if_pos hc]
      have hs : neededPure reqs ≠ [REG_STATUS.address] := by
        intro h
        obtain ⟨r, hr, hne⟩ := hc
        exact hne ((neededPure_eq_status_iff reqs).mp h r hr)
      unfold fetchList
      rw [if_neg hs]
      rw [List.Nodup.mem_erase_iff (nodup_neededPure reqs), mem_neededPure]
      constructor
      · rintro ⟨hne, h | h⟩
        · exact absurd h hne
        · exact ⟨hne, h⟩
      · rintro ⟨hne, h⟩
        exact ⟨hne, Or.inr h⟩
    · rw [if_neg hc]
      have hall : ∀ r ∈ reqs, r.address = REG_STATUS.address := by
        intro r hr
        by_contra hne
        exact hc ⟨r, hr, hne⟩
      have hs := (neededPure_eq_status_iff reqs).mpr hall
      unfold fetchList
      rw [if_pos hs, hs]
      simp

/-- Witness for C2: reading `MASK_RX_DR`, `RX_DR` and `MASK_TX_DS` (CONFIG,
STATUS, CONFIG) fetches only CONFIG — STATUS rides along on byte 0. -/
theorem C2_witness :
    ValidReqs [.field MASK_RX_DR, .field RX_DR, .field MASK_TX_DS] ∧
    (∃ (fetch : List Nat) (outs : PyValue),
      NRF24Device.get (fun _ => 0)
          [.field MASK_RX_DR, .field RX_DR, .field MASK_TX_DS] =
        .ok (fetch.map (fun a => .spi [a, _SPI_NOP]), outs) ∧
      fetch.Nodup ∧
      (∀ a, a ∈ fetch ↔
        (if ∃ r ∈ [GetRequest.field MASK_RX_DR, .field RX_DR, .field MASK_TX_DS],
              r.address ≠ REG_STATUS.address
         then a ≠ REG_STATUS.address ∧
           ∃ r ∈ [GetRequest.field MASK_RX_DR, .field RX_DR, .field MASK_TX_DS],
             r.address = a
         else a = REG_STATUS.address))) :=
  ⟨by decide,
   C2_one_read_per_address (fun _ => 0)
     [.field MASK_RX_DR, .field RX_DR, .field MASK_TX_DS] (by decide)⟩

/-! ## C3: batched `get` equals per-request `get` -/

/-- `shape` of a list that is not a singleton is the tuple. -/
theorem shape_of_ne_one {l : List Nat} (h : l.length ≠ 1) :
    shape l = .tuple l := by
  match l, h with
  | [], _ => rfl
  | [x], h => exact absurd rfl h
  | x :: y :: t, _ => rfl

/-- C3: one request returns a scalar; `N ≥ 2` requests return an ordered
`N`-tuple whose `i`-th element is exactly what `get()` returns for the
`i`-th request alone against the same register state (order and duplicates
preserved). -/
theorem C3_batched_get_matches_single (regs : Nat → Nat)
    (reqs : List GetRequest) (hv : ValidReqs reqs) :
    (∀ r, reqs = [r] →
      NRF24Device.get regs reqs =
        .ok ((fetchList (neededPure reqs)).map (fun a => .spi [a, _SPI_NOP]),
             .scalar (scalarRead regs r))) ∧
    (2 ≤ reqs.length →
      ∃ tr outs, NRF24Device.get regs reqs = .ok (tr, .tuple outs) ∧
        outs.length = reqs.length ∧
        ∀ i, i < reqs.length →
          ∃ tri, NRF24Device.get regs [reqs.getD i default] =
            .ok (tri, .scalar (outs.getD i 0))) := by
  constructor
  · intro r hr
    subst hr
    rw [get_eq_scalarRead regs [r] hv]
    rfl
  · intro hlen
    refine ⟨(fetchList (neededPure reqs)).map (fun a => .spi [a, _SPI_NOP]),
      reqs.map (scalarRead regs), ?_, by simp, ?_⟩
    · rw [get_eq_scalarRead regs reqs hv, shape_of_ne_one (by simp; omega)]
    · intro i hi
      obtain ⟨r, hr⟩ : ∃ r, reqs.get? i = some r :=
        ⟨reqs.get ⟨i, hi⟩, List.get?_eq_get hi⟩
      have hmem : r ∈ reqs := List.get?_mem hr
      have hgetD : reqs.getD i default = r := by
        rw [List.getD_eq_get?, hr]
        rfl
      have hv1 : ValidReqs [r] := by
        intro x hx
        rw [List.mem_singleton.mp hx]
        exact hv r hmem
      refine ⟨(fetchList (neededPure [r])).map (fun a => .spi [a, _SPI_NOP]), ?_⟩
      rw [hgetD, get_eq_scalarRead regs [r] hv1]
      have houtD : (reqs.map (scalarRead regs)).getD i 0 = scalarRead regs r := by
        rw [List.getD_eq_get?, List.get?_map, hr]
        rfl
      rw [houtD]
      rfl

/-- Witness for C3 at two concrete requests (`PWR_UP`, `TX_FULL`). -/
theorem C3_witness :
    ValidReqs [.field MASK_RX_DR, .field RX_DR] ∧
    2 ≤ ([GetRequest.field MASK_RX_DR, .field RX_DR]).length ∧
    (∃ tr outs,
      NRF24Device.get (fun a => 17 * a) [.field MASK_RX_DR, .field RX_DR] =
        .ok (tr, .tuple outs) ∧
      outs.length = ([GetRequest.field MASK_RX_DR, .field RX_DR]).length ∧
      ∀ i, i < ([GetRequest.field MASK_RX_DR, .field RX_DR]).length →
        ∃ tri, NRF24Device.get (fun a => 17 * a)
            [([GetRequest.field MASK_RX_DR, .field RX_DR]).getD i default] =
          .ok (tri, .scalar (outs.getD i 0))) :=
  ⟨by decide, by decide,
   (C3_batched_get_matches_single (fun a => 17 * a)
     [.field MASK_RX_DR, .field RX_DR] (by decide)).2 (by decide)⟩

/-! ## Field-set invariants -/

/-- Extracting the two checks and the result from a successful `__ior__`. -/
theorem ior_ok_elim {s : RegisterFieldSet} {f : RegisterField}
    {s' : RegisterFieldSet} (h : s.ior f = .ok s') :
    ¬ (s.fields ≠ [] ∧ f.spec.register_address ≠ s.getRegisterAddress) ∧
    (∀ g ∈ s.fields, f.spec.field_name ≠ g.spec.field_name) ∧
    s' = ⟨s.fields ++ [f]⟩ := by
  unfold RegisterFieldSet.ior at h
  split at h
  · exact absurd h (by simp)
  · split at h
    · exact absurd h (by simp)
    · rename_i hc1 hc2
      refine ⟨hc1, ?_, ?_⟩
      · intro g hg hname
        apply hc2
        rw [List.any_eq_true]
        exact ⟨g, hg, by simp [hname]⟩
      · cases h
        rfl

/-- Every reachable field set satisfies `FieldsInv`. -/
theorem built_inv {s : RegisterFieldSet} (h : Built s) : FieldsInv s.fields := by
  induction h with
  | nil => exact ⟨by simp, by simp, by simp⟩
  | insert s f s' hb hw hok ih =>
    obtain ⟨hc1, hc2, rfl⟩ := ior_ok_elim hok
    obtain ⟨ihw, ihp, iha⟩ := ih
    refine ⟨?_, ?_, ?_⟩
    · intro g hg
      rcases List.mem_append.mp hg with h' | h'
      · exact ihw g h'
      · rw [List.mem_singleton.mp h']
        exact hw
    · rw [List.pairwise_append]
      refine ⟨ihp, List.pairwise_singleton _ _, ?_⟩
      intro a ha b hb'
      rw [List.mem_singleton.mp hb']
      exact (hc2 a ha).symm
    · intro x hx y hy
      have haddr : ∀ z ∈ s.fields, z.spec.register_address =
          f.spec.register_address := by
        intro z hz
        cases hsf : s.fields with
        | nil => rw [hsf] at hz; simp at hz
        | cons g0 t =>
          have hne : s.fields ≠ [] := by rw [hsf]; simp
          have hfa : f.spec.register_address = s.getRegisterAddress := by
            by_contra hne'
            exact hc1 ⟨hne, hne'⟩
          have hg0 : s.getRegisterAddress = g0.spec.register_address := by
            unfold RegisterFieldSet.getRegisterAddress
            rw [hsf]
          rw [hfa, hg0]
          exact iha z hz g0 (by rw [hsf]; simp)
      rcases List.mem_append.mp hx with hx' | hx' <;>
        rcases List.mem_append.mp hy with hy' | hy'
      · exact iha x hx' y hy'
      · rw [List.mem_singleton.mp hy', haddr x hx']
      · rw [List.mem_singleton.mp hx', haddr y hy']
      · rw [List.mem_singleton.mp hx', List.mem_singleton.mp hy']

/-- `testBit` of an OR-fold: a bit is set iff some member sets it. -/
theorem testBit_foldl_or {α : Type} (h : α → Nat) (l : List α) (acc i : Nat) :
    (l.foldl (fun m x => m ||| h x) acc).testBit i =
      (acc.testBit i || l.any (fun x => (h x).testBit i)) := by
  induction l generalizing acc with
  | nil => simp
  | cons x rest ih =>
    simp only [List.foldl, List.any_cons, ih, Nat.testBit_or]
    rw [Bool.or_assoc]

/-- A shifted field value only sets bits of the field's mask. -/
theorem unshifted_value_under_mask {f : RegisterField}
    (hw : f.value ≤ f.spec.get_max_value) {i : Nat}
    (h : f.get_unshifted_value.testBit i = true) :
    (_get_mask f.spec).testBit i = true := by
  unfold RegisterField.get_unshifted_value at h
  unfold _get_mask _get_unshifted_mask
  rw [Nat.testBit_shiftLeft] at h ⊢
  obtain ⟨h1, h2⟩ := Bool.and_eq_true_iff.mp h
  rw [h1, Bool.true_and]
  have hpow : 1 ≤ 2 ^ f.spec.num_bits := Nat.one_le_two_pow
  have hv : f.value < 2 ^ f.spec.num_bits := by
    unfold FieldSpec.get_max_value at hw
    rw [Nat.shiftLeft_eq, one_mul] at hw
    omega
  have hlt : i - f.spec.start_bit < f.spec.num_bits := by
    by_contra hge
    have : f.value < 2 ^ (i - f.spec.start_bit) := by
      calc f.value < 2 ^ f.spec.num_bits := hv
      _ ≤ 2 ^ (i - f.spec.start_bit) :=
        Nat.pow_le_pow_right (by norm_num) (by omega)
    rw [Nat.testBit_lt_two_pow this] at h2
    exact Bool.false_ne_true h2
  rw [Nat.shiftLeft_eq, one_mul, Nat.testBit_two_pow_sub_one]
  simpa using hlt

/-- In an invariant set, every bit of the combined value lies under the
combined mask. -/
theorem inv_value_under_mask {s : RegisterFieldSet} (hinv : FieldsInv s.fields)
    {i : Nat} (h : s.get_value.testBit i = true) :
    s.get_mask.testBit i = true := by
  unfold RegisterFieldSet.get_value at h
  unfold RegisterFieldSet.get_mask
  rw [testBit_foldl_or] at h
  rw [testBit_foldl_or]
  simp only [Nat.zero_testBit, Bool.false_or] at h ⊢
  obtain ⟨f, hf, hbit⟩ := List.any_eq_true.mp h
  exact List.any_eq_true.mpr
    ⟨f, hf, unshifted_value_under_mask (hinv.1 f hf).2 hbit⟩

/-- In an invariant set, every bit of the combined mask comes from some
member's field mask. -/
theorem inv_mask_bit_member {s : RegisterFieldSet} {i : Nat}
    (h : s.get_mask.testBit i = true) :
    ∃ f ∈ s.fields, (_get_mask f.spec).testBit i = true := by
  unfold RegisterFieldSet.get_mask at h
  rw [testBit_foldl_or] at h
  simp only [Nat.zero_testBit, Bool.false_or] at h
  exact List.any_eq_true.mp h

/-- The combined mask of an invariant set is one byte. -/
theorem inv_mask_le_255 {s : RegisterFieldSet} (hinv : FieldsInv s.fields) :
    s.get_mask ≤ 255 := by
  have h : s.get_mask < 2 ^ 8 := by
    apply Nat.lt_pow_two_of_testBit
    intro i hi
    cases hbit : s.get_mask.testBit i
    · rfl
    · obtain ⟨f, hf, hfb⟩ := inv_mask_bit_member hbit
      have hle := catalog_mask_le f.spec (hinv.1 f hf).1
      exact absurd (testBit_lt_8 hle hfb) (by omega)
  omega

/-- The combined value of an invariant set is one byte. -/
theorem inv_value_le_255 {s : RegisterFieldSet} (hinv : FieldsInv s.fields) :
    s.get_value ≤ 255 :=
  under_mask_le_255 (fun _ h => inv_value_under_mask hinv h)
    (inv_mask_le_255 hinv)

/-- The spec-level invariant `combinedValue & ~combinedMask == 0` (stated
over bytes) of every invariant set. -/
theorem inv_value_and_compl {s : RegisterFieldSet} (hinv : FieldsInv s.fields) :
    s.get_value &&& (255 ^^^ s.get_mask) = 0 :=
  under_mask_and_compl (fun _ h => inv_value_under_mask hinv h)
    (inv_mask_le_255 hinv)

/-- The register address of a non-empty invariant set is a valid single-byte
register address. -/
theorem inv_addr_valid {s : RegisterFieldSet} (hinv : FieldsInv s.fields)
    (hne : s.fields ≠ []) :
    validRegisterAndSize s.getRegisterAddress 1 = true := by
  cases hsf : s.fields with
  | nil => exact absurd hsf hne
  | cons f0 t =>
    have h0 : f0 ∈ s.fields := by rw [hsf]; simp
    have := catalog_addr_valid f0.spec (hinv.1 f0 h0).1
    unfold RegisterFieldSet.getRegisterAddress
    rw [hsf]
    exact this

/-! ## C5: field-set insertion -/

/-- C5: inserting into a reachable `FieldValueSet` a well-formed field value
from a different register, or one whose mask overlaps the set's combined mask
(which, for the generated catalog fields, forces an equal field name), fails
with a `ConflictError` at insertion time; and the set — before and after any
successful insertion — satisfies `combinedValue & ~combinedMask == 0`. -/
theorem C5_fieldset_insertion (s : RegisterFieldSet) (hb : Built s)
    (f : RegisterField) (hf : f.WF) :
    (s.get_value &&& (255 ^^^ s.get_mask) = 0) ∧
    (s.fields ≠ [] →
      (f.spec.register_address ≠ s.getRegisterAddress ∨
        s.get_mask &&& _get_mask f.spec ≠ 0) →
      (s.ior f = .error .conflictDifferentRegister ∨
       s.ior f = .error .conflictFieldAlreadyIncluded)) ∧
    (∀ s', s.ior f = .ok s' →
      s'.get_value &&& (255 ^^^ s'.get_mask) = 0) := by
  have hinv := built_inv hb
  refine ⟨inv_value_and_compl hinv, ?_, ?_⟩
  · intro hne hcase
    by_cases haddr : f.spec.register_address = s.getRegisterAddress
    · -- same register: the overlap forces a duplicated name
      have hover : s.get_mask &&& _get_mask f.spec ≠ 0 := by
        rcases hcase with h | h
        · exact absurd haddr h
        · exact h
      obtain ⟨i, hbit⟩ : ∃ i, (s.get_mask &&& _get_mask f.spec).testBit i = true := by
        by_contra hall
        push_neg at hall
        apply hover
        apply Nat.eq_of_testBit_eq
        intro i
        rw [Nat.zero_testBit]
        have := hall i
        simpa using this
      rw [Nat.testBit_and, Bool.and_eq_true] at hbit
      obtain ⟨g, hg, hgbit⟩ := inv_mask_bit_member hbit.1
      have hsame : g.spec.register_address = f.spec.register_address := by
        rw [haddr]
        cases hsf : s.fields with
        | nil => rw [hsf] at hg; simp at hg
        | cons g0 t =>
          unfold RegisterFieldSet.getRegisterAddress
          rw [hsf]
          exact hinv.2.2 g hg g0 (by rw [hsf]; simp)
      have hnames : g.spec.field_name = f.spec.field_name := by
        by_contra hdiff
        have hdisj := catalog_disjoint g.spec (hinv.1 g hg).1 f.spec hf.1
          hsame hdiff
        have : (_get_mask g.spec &&& _get_mask f.spec).testBit i = true := by
          rw [Nat.testBit_and, hgbit, hbit.2]
          rfl
        rw [hdisj] at this
        simp at this
      right
      unfold RegisterFieldSet.ior
      rw [if_neg (by intro hc; exact hc.2 haddr), if_pos]
      exact List.any_eq_true.mpr ⟨g, hg, by simp [hnames]⟩
    · left
      unfold RegisterFieldSet.ior
      rw [if_pos ⟨hne, haddr⟩]
  · intro s' hok
    exact inv_value_and_compl (built_inv (Built.insert s f s' hb hf hok))

/-- Witness for C5: the set `{PWR_UP(1)}` with the insertion of a second copy
of `PWR_UP(1)` (overlapping mask, same register), which must fail, and its
byte invariant. -/
theorem C5_witness :
    (RegisterFieldSet.get_value ⟨[⟨⟨"CONFIG", 0x00, "PWR_UP", 1, 1, 0, "R/W"⟩, 1⟩]⟩ &&&
      (255 ^^^ RegisterFieldSet.get_mask
        ⟨[⟨⟨"CONFIG", 0x00, "PWR_UP", 1, 1, 0, "R/W"⟩, 1⟩]⟩) = 0) ∧
    (RegisterFieldSet.ior ⟨[⟨⟨"CONFIG", 0x00, "PWR_UP", 1, 1, 0, "R/W"⟩, 1⟩]⟩
        ⟨⟨"CONFIG", 0x00, "PWR_UP", 1, 1, 0, "R/W"⟩, 1⟩ =
          .error .conflictDifferentRegister ∨
     RegisterFieldSet.ior ⟨[⟨⟨"CONFIG", 0x00, "PWR_UP", 1, 1, 0, "R/W"⟩, 1⟩]⟩
        ⟨⟨"CONFIG", 0x00, "PWR_UP", 1, 1, 0, "R/W"⟩, 1⟩ =
          .error .conflictFieldAlreadyIncluded) := by
  have h := C5_fieldset_insertion
    ⟨[⟨⟨"CONFIG", 0x00, "PWR_UP", 1, 1, 0, "R/W"⟩, 1⟩]⟩
    (Built.insert ⟨[]⟩ ⟨⟨"CONFIG", 0x00, "PWR_UP", 1, 1, 0, "R/W"⟩, 1⟩ _
      Built.nil (by decide) rfl)
    ⟨⟨"CONFIG", 0x00, "PWR_UP", 1, 1, 0, "R/W"⟩, 1⟩ (by decide)
  exact ⟨h.1, h.2.1 (by decide) (Or.inr (by decide))⟩

/-! ## Evaluating `set` on a single field set -/

/-- On bytes, Python's `x & ~m` (`Nat.ldiff`) equals the 8-bit computation
`x &&& (255 ^^^ m)` — used to evaluate concrete read-modify-write bytes. -/
theorem ldiff_eq_and_xor {x m : Nat} (hx : x ≤ 255) (hm : m ≤ 255) :
    Nat.ldiff x m = x &&& (255 ^^^ m) := by
  apply Nat.eq_of_testBit_eq
  intro i
  rw [Nat.testBit_ldiff, Nat.testBit_and, Nat.testBit_xor]
  by_cases hi : i < 8
  · have h255 : (255 : Nat).testBit i = true := by
      rw [show (255 : Nat) = 2 ^ 8 - 1 by norm_num, Nat.testBit_two_pow_sub_one]
      simpa using hi
    rw [h255]
    cases m.testBit i <;> simp
  · have hx8 : x.testBit i = false := by
      apply Nat.testBit_lt_two_pow
      calc x ≤ 255 := hx
      _ < 2 ^ 8 := by norm_num
      _ ≤ 2 ^ i := Nat.pow_le_pow_right (by norm_num) (by omega)
    rw [hx8]
    simp

/-- Rebuilding an invariant field list by successive `__ior__` insertions
(the partition loop of `set()`) reproduces it unchanged. -/
theorem foldlM_ior_append (rest : List RegisterField) :
    ∀ acc : List RegisterField, FieldsInv (acc ++ rest) →
      rest.foldlM RegisterFieldSet.ior ⟨acc⟩ = .ok ⟨acc ++ rest⟩ := by
  induction rest with
  | nil =>
    intro acc _
    simp only [List.foldlM_nil, List.append_nil]
    rfl
  | cons b t ih =>
    intro acc h
    have hok : RegisterFieldSet.ior ⟨acc⟩ b = .ok ⟨acc ++ [b]⟩ := by
      unfold RegisterFieldSet.ior
      rw [if_neg ?_, if_neg ?_]
      · rw [List.any_eq_true]
        rintro ⟨g, hg, hname⟩
        have hcross := (List.pairwise_append.mp h.2.1).2.2 g hg b (by simp)
        simp at hname
        exact hcross hname.symm
      · rintro ⟨hne, haddr⟩
        apply haddr
        obtain ⟨g0, u, hacc⟩ : ∃ g0 u, acc = g0 :: u := by
          cases hacc : acc with
          | nil => exact absurd (by simp [hacc]) hne
          | cons g0 u => exact ⟨g0, u, rfl⟩
        subst hacc
        show b.spec.register_address = g0.spec.register_address
        exact h.2.2 b (by simp) g0 (by simp)
    rw [List.foldlM_cons, hok]
    show t.foldlM RegisterFieldSet.ior ⟨acc ++ [b]⟩ = _
    rw [ih (acc ++ [b]) (by simpa using h)]
    simp

/-- `iorMany` from the empty set rebuilds an invariant set. -/
theorem iorMany_rebuild {s : RegisterFieldSet} (hinv : FieldsInv s.fields) :
    RegisterFieldSet.iorMany ⟨[]⟩ s = .ok s := by
  unfold RegisterFieldSet.iorMany
  have h := foldlM_ior_append s.fields [] (by simpa using hinv)
  simpa using h

/-- `_to_bytes` on a byte int. -/
theorem _to_bytes_int {n : Nat} (hn : n ≤ 255) :
    _to_bytes (.intVal n) = .ok [n] := by
  simp only [_to_bytes]
  rw [if_pos hn]

/-- `_set_register` on a one-byte int value at a valid address. -/
theorem _set_register_int (regs : Nat → Nat) (a n : Nat)
    (ha : validRegisterAndSize a 1 = true) (hn : n ≤ 255) :
    _set_register regs a (.intVal n) =
      .ok (.spi [0b00100000 ||| a, n], readByte regs 7) := by
  unfold _set_register
  rw [if_neg (by simp [ha]), _to_bytes_int hn]

/-- `get_register1` at a valid address: the read byte is the register's byte
in both the generic and the STATUS branch. -/
theorem get_register1_eq (regs : Nat → Nat) (a : Nat)
    (ha : validRegisterAndSize a 1 = true) :
    get_register1 regs a =
      .ok ((if a = REG_STATUS.address then TraceEntry.spi [_SPI_NOP]
            else .spi [a, _SPI_NOP]),
           readByte regs 7, readByte regs a) := by
  unfold get_register1
  rw [if_neg (by simp [ha])]
  by_cases h7 : a = REG_STATUS.address
  · rw [if_neg (by simpa using h7), if_pos h7, h7]
    rfl
  · rw [if_pos h7, if_neg h7]

/-- The read byte is a byte. -/
theorem readByte_le (regs : Nat → Nat) (a : Nat) : readByte regs a ≤ 255 := by
  unfold readByte
  omega

/-- The read-modify-write byte is a byte. -/
theorem rmw_byte_le {v : Nat} (old m : Nat) (hv : v ≤ 255) (hold : old ≤ 255) :
    v ||| Nat.ldiff old m ≤ 255 := by
  have h1 : v < 2 ^ 8 := by omega
  have h2 : Nat.ldiff old m < 2 ^ 8 := by
    have hle : Nat.ldiff old m ≤ old := by
      apply Nat.le_of_testBit
      intro i h
      rw [Nat.testBit_ldiff] at h
      exact (Bool.and_eq_true_iff.mp h).1
    omega
  have := Nat.or_lt_two_pow h1 h2
  omega

/-- The partition phase of `set()` on a single non-empty field-set argument:
no whole-register writes, one field-set entry under its register address. -/
theorem setValidate_single_fieldSet {rfs : RegisterFieldSet}
    (hinv : FieldsInv rfs.fields) (hne : rfs.fields ≠ []) :
    setValidate [.fieldSet rfs] =
      .ok ([], [(rfs.getRegisterAddress, rfs)]) := by
  obtain ⟨fields⟩ := rfs
  obtain ⟨f0, rest, rfl⟩ : ∃ f0 r, fields = f0 :: r := by
    cases h : fields with
    | nil => exact absurd h hne
    | cons a b => exact ⟨a, b, rfl⟩
  have hior : RegisterFieldSet.iorMany ⟨[]⟩ ⟨f0 :: rest⟩ = .ok ⟨f0 :: rest⟩ :=
    iorMany_rebuild hinv
  unfold setValidate
  rw [if_neg (by simp)]
  rw [show buildRegisters [SetItem.fieldSet ⟨f0 :: rest⟩] = .ok [] from rfl]
  unfold buildFieldSets insertFieldItem
  simp only [List.foldlM_cons, List.foldlM_nil, List.lookup_nil,
    Option.isSome_none, Option.getD_none]
  rw [if_neg (by simp), hior]
  rfl

/-- A step of `set_fields_loop` for a single field set. -/
theorem set_fields_loop_single (regs : Nat → Nat) (rfs : RegisterFieldSet)
    (txs : List TraceEntry) (st : Nat)
    (h : set_one_field_write regs rfs = .ok (txs, st)) :
    set_fields_loop regs [rfs] = (txs, .ok (some st)) := by
  unfold set_fields_loop
  rw [h]
  show (txs ++ [], Except.ok (some ((none : Option Nat).getD st))) = _
  simp

/-- Assembling `NRF24Device.set` from the results of its phases. -/
theorem set_eval (regs : Nat → Nat) (items : List SetItem)
    (fs : List (Nat × RegisterFieldSet)) (t2 : List TraceEntry) (st : Nat)
    (h1 : setValidate items = .ok ([], fs))
    (h3 : set_fields_loop regs (fs.map Prod.snd) = (t2, .ok (some st))) :
    NRF24Device.set regs items = (t2, .ok (some st)) := by
  unfold NRF24Device.set
  rw [h1]
  show (match _set_registers regs [] with
        | (t1, Except.error e) => (t1, Except.error e)
        | (t1, Except.ok st1) =>
          match set_fields_loop regs (fs.map Prod.snd) with
          | (t2, Except.error e) => (t1 ++ t2, Except.error e)
          | (t2, Except.ok st2) =>
            (t1 ++ t2,
             Except.ok (match st2 with | some s => some s | none => st1))) = _
  rw [show _set_registers regs [] = ([], .ok none) from rfl, h3]
  rfl

/-- Full evaluation of `set()` on one reachable, non-empty field set with a
partial mask: a read of the register followed by the write-back of
`value | (old & ~mask)`, returning the STATUS byte of the last exchange. -/
theorem set_single_fieldSet_rmw (regs : Nat → Nat) (rfs : RegisterFieldSet)
    (hinv : FieldsInv rfs.fields) (hne : rfs.fields ≠ [])
    (hmask : rfs.get_mask ≠ 0xFF) :
    NRF24Device.set regs [.fieldSet rfs] =
      ([(if rfs.getRegisterAddress = REG_STATUS.address then
           TraceEntry.spi [_SPI_NOP]
         else .spi [rfs.getRegisterAddress, _SPI_NOP]),
        .spi [0b00100000 ||| rfs.getRegisterAddress,
          rfs.get_value |||
            Nat.ldiff (readByte regs rfs.getRegisterAddress) rfs.get_mask]],
       .ok (some (readByte regs 7))) := by
  have ha := inv_addr_valid hinv hne
  have hv := inv_value_le_255 hinv
  have hone : set_one_field_write regs rfs =
      .ok ([(if rfs.getRegisterAddress = REG_STATUS.address then
               TraceEntry.spi [_SPI_NOP]
             else .spi [rfs.getRegisterAddress, _SPI_NOP]),
            .spi [0b00100000 ||| rfs.getRegisterAddress,
              rfs.get_value |||
                Nat.ldiff (readByte regs rfs.getRegisterAddress) rfs.get_mask]],
           readByte regs 7) := by
    obtain ⟨f0, rest, hf⟩ : ∃ f0 r, rfs.fields = f0 :: r := by
      cases h : rfs.fields with
      | nil => exact absurd h hne
      | cons a b => exact ⟨a, b, rfl⟩
    unfold set_one_field_write
    rw [hf]
    simp only []
    rw [if_pos hmask, get_register1_eq regs _ ha]
    show (match _set_register regs rfs.getRegisterAddress
            (RegValueData.intVal (rfs.get_value |||
              Nat.ldiff (readByte regs rfs.getRegisterAddress) rfs.get_mask)) with
          | Except.error e => Except.error e
          | Except.ok (tx2, st) =>
            Except.ok ([(if rfs.getRegisterAddress = REG_STATUS.address then
                TraceEntry.spi [_SPI_NOP]
              else TraceEntry.spi [rfs.getRegisterAddress, _SPI_NOP]), tx2],
              st)) = _
    rw [_set_register_int regs _ _ ha
      (rmw_byte_le _ _ hv (readByte_le regs _))]
  exact set_eval regs [.fieldSet rfs] [(rfs.getRegisterAddress, rfs)] _ _
    (setValidate_single_fieldSet hinv hne)
    (by rw [show List.map Prod.snd [(rfs.getRegisterAddress, rfs)] = [rfs]
          from rfl]
        exact set_fields_loop_single regs rfs _ _ hone)

/-! ## C1: read-modify-write of partial-register field writes -/

/-- C1: for a reachable non-empty field set whose combined mask is not 0xFF,
`set()` reads the register's current byte and writes back exactly
`combinedValue | (oldByte & ~combinedMask)`, so every bit outside the
combined mask keeps its pre-call value. -/
theorem C1_partial_write_rmw (regs : Nat → Nat) (rfs : RegisterFieldSet)
    (hb : Built rfs) (hne : rfs.fields ≠ []) (hmask : rfs.get_mask ≠ 0xFF) :
    ∃ w st,
      NRF24Device.set regs [.fieldSet rfs] =
        ([(if rfs.getRegisterAddress = REG_STATUS.address then
             TraceEntry.spi [_SPI_NOP]
           else .spi [rfs.getRegisterAddress, _SPI_NOP]),
          .spi [0b00100000 ||| rfs.getRegisterAddress, w]],
         .ok st) ∧
      w = rfs.get_value |||
        Nat.ldiff (readByte regs rfs.getRegisterAddress) rfs.get_mask ∧
      ∀ i, rfs.get_mask.testBit i = false →
        w.testBit i = (readByte regs rfs.getRegisterAddress).testBit i := by
  refine ⟨rfs.get_value |||
      Nat.ldiff (readByte regs rfs.getRegisterAddress) rfs.get_mask,
    some (readByte regs 7),
    set_single_fieldSet_rmw regs rfs (built_inv hb) hne hmask, rfl, ?_⟩
  intro i hbit
  exact or_ldiff_testBit_outside _ i
    (fun j hj => inv_value_under_mask (built_inv hb) hj) hbit

/-- Witness for C1, realising the spec's example: with the register byte at
`0b10110000` and the two-bit field `AW` (bits 0–1) written to `0b11`, the
byte written back is `0b10110011`. -/
theorem C1_witness :
    (∃ w st,
      NRF24Device.set (fun a => if a = 3 then 0b10110000 else 0)
          [.fieldSet ⟨[⟨⟨"SETUP_AW", 0x03, "AW", 0, 2, 0b11, "R/W"⟩, 0b11⟩]⟩] =
        ([(if RegisterFieldSet.getRegisterAddress
                ⟨[⟨⟨"SETUP_AW", 0x03, "AW", 0, 2, 0b11, "R/W"⟩, 0b11⟩]⟩ =
              REG_STATUS.address then
             TraceEntry.spi [_SPI_NOP]
           else .spi [RegisterFieldSet.getRegisterAddress
              ⟨[⟨⟨"SETUP_AW", 0x03, "AW", 0, 2, 0b11, "R/W"⟩, 0b11⟩]⟩,
              _SPI_NOP]),
          .spi [0b00100000 ||| RegisterFieldSet.getRegisterAddress
              ⟨[⟨⟨"SETUP_AW", 0x03, "AW", 0, 2, 0b11, "R/W"⟩, 0b11⟩]⟩, w]],
         .ok st) ∧
      w = RegisterFieldSet.get_value
            ⟨[⟨⟨"SETUP_AW", 0x03, "AW", 0, 2, 0b11, "R/W"⟩, 0b11⟩]⟩ |||
          Nat.ldiff (readByte (fun a => if a = 3 then 0b10110000 else 0)
            (RegisterFieldSet.getRegisterAddress
              ⟨[⟨⟨"SETUP_AW", 0x03, "AW", 0, 2, 0b11, "R/W"⟩, 0b11⟩]⟩))
            (RegisterFieldSet.get_mask
              ⟨[⟨⟨"SETUP_AW", 0x03, "AW", 0, 2, 0b11, "R/W"⟩, 0b11⟩]⟩) ∧
      ∀ i, (RegisterFieldSet.get_mask
            ⟨[⟨⟨"SETUP_AW", 0x03, "AW", 0, 2, 0b11, "R/W"⟩, 0b11⟩]⟩).testBit i
              = false →
        w.testBit i = (readByte (fun a => if a = 3 then 0b10110000 else 0)
          (RegisterFieldSet.getRegisterAddress
            ⟨[⟨⟨"SETUP_AW", 0x03, "AW", 0, 2, 0b11, "R/W"⟩, 0b11⟩]⟩)).testBit
              i) ∧
    RegisterFieldSet.get_value
        ⟨[⟨⟨"SETUP_AW", 0x03, "AW", 0, 2, 0b11, "R/W"⟩, 0b11⟩]⟩ |||
      Nat.ldiff 0b10110000 (RegisterFieldSet.get_mask
        ⟨[⟨⟨"SETUP_AW", 0x03, "AW", 0, 2, 0b11, "R/W"⟩, 0b11⟩]⟩) = 0b10110011 :=
  ⟨C1_partial_write_rmw (fun a => if a = 3 then 0b10110000 else 0)
    ⟨[⟨⟨"SETUP_AW", 0x03, "AW", 0, 2, 0b11, "R/W"⟩, 0b11⟩]⟩
    (Built.insert ⟨[]⟩ ⟨⟨"SETUP_AW", 0x03, "AW", 0, 2, 0b11, "R/W"⟩, 0b11⟩ _
      Built.nil (by decide) rfl)
    (by decide) (by decide),
   by rw [ldiff_eq_and_xor (by norm_num) (by decide)]
      decide⟩

/-! ## C4: validation versus bus transactions in `set()` -/

/-- Counterexample to C4 as stated: `set(REG_RX_ADDR_P2(0xC3), REG_RX_ADDR_P3())`
— the second item is a whole-register value constructed without a value,
which `_Register.__init__` permits — issues the first write transaction and
only then fails `_to_bytes`'s caller-input check on the value-less item, so
a `set()` call that fails validation can leave the device partially
mutated. -/
theorem C4_counterexample :
    mkRegisterValue REG_RX_ADDR_P3 .noneVal = .ok ⟨REG_RX_ADDR_P3, .noneVal⟩ ∧
    NRF24Device.set (fun _ => 0)
        [.reg ⟨REG_RX_ADDR_P2, .intVal 0xC3⟩, .reg ⟨REG_RX_ADDR_P3, .noneVal⟩] =
      ([.spi [0x2C, 0xC3]], .error .valueError) ∧
    ([TraceEntry.spi [0x2C, 0xC3]] : List TraceEntry) ≠ [] :=
  ⟨rfl, rfl, by simp⟩

/-- C4 (amended): every error of `set()`'s argument-validation and partition
phase — including the two `ConflictError`s: a register written both whole
and through fields, and a register specified twice — is raised before any
bus transaction is issued, leaving the device untouched.  (Only a
whole-register item carrying no value escapes this phase and fails later,
at its own write — the counterexample above.) -/
theorem C4_validation_before_bus (regs : Nat → Nat) (items : List SetItem)
    (e : NrfError) (h : setValidate items = .error e) :
    NRF24Device.set regs items = ([], .error e) := by
  unfold NRF24Device.set
  rw [h]

/-- Witness for C4 at the register+field collision of the claim:
`set(REG_CONFIG(8), PWR_UP(1))` fails with the conflict error and issues no
transaction. -/
theorem C4_witness :
    setValidate [.reg ⟨⟨"REG_CONFIG", 0x00, 1, 1⟩, .intVal 8⟩,
        .field ⟨⟨"CONFIG", 0x00, "PWR_UP", 1, 1, 0, "R/W"⟩, 1⟩] =
      .error .registerFieldConflict ∧
    NRF24Device.set (fun _ => 0)
        [.reg ⟨⟨"REG_CONFIG", 0x00, 1, 1⟩, .intVal 8⟩,
         .field ⟨⟨"CONFIG", 0x00, "PWR_UP", 1, 1, 0, "R/W"⟩, 1⟩] =
      ([], .error .registerFieldConflict) :=
  ⟨rfl,
   C4_validation_before_bus (fun _ => 0)
     [.reg ⟨⟨"REG_CONFIG", 0x00, 1, 1⟩, .intVal 8⟩,
      .field ⟨⟨"CONFIG", 0x00, "PWR_UP", 1, 1, 0, "R/W"⟩, 1⟩]
     .registerFieldConflict rfl⟩

/-! ## C7: the reset sequence -/

/-- Sequencing through a successful step appends its trace. -/
theorem thenDo_ok (t : List TraceEntry)
    (next : Unit → List TraceEntry × Except NrfError Unit) :
    thenDo (t, .ok ()) next = (t ++ (next ()).1, (next ()).2) := rfl

/-- Unfolding one successful iteration of the reset bulk loop. -/
theorem resetLoop_cons (regs : Nat → Nat) (r : RegisterInfo)
    (rest : List RegisterInfo) (t : List TraceEntry)
    (h : resetStep regs r = (t, .ok ())) :
    resetLoop regs (r :: rest) =
      (t ++ (resetLoop regs rest).1, (resetLoop regs rest).2) := by
  rw [show resetLoop regs (r :: rest) =
        thenDo (resetStep regs r) (fun _ => resetLoop regs rest) from rfl,
    h, thenDo_ok]

/-- `setAsStep` on a read-modify-write field set. -/
theorem setAsStep_rmw (regs : Nat → Nat) (rfs : RegisterFieldSet)
    (hinv : FieldsInv rfs.fields) (hne : rfs.fields ≠ [])
    (hmask : rfs.get_mask ≠ 0xFF) :
    setAsStep regs [.fieldSet rfs] =
      ([(if rfs.getRegisterAddress = REG_STATUS.address then
           TraceEntry.spi [_SPI_NOP]
         else .spi [rfs.getRegisterAddress, _SPI_NOP]),
        .spi [0b00100000 ||| rfs.getRegisterAddress,
          rfs.get_value |||
            Nat.ldiff (readByte regs rfs.getRegisterAddress) rfs.get_mask]],
       .ok ()) := by
  unfold setAsStep
  rw [set_single_fieldSet_rmw regs rfs hinv hne hmask]

/-- One bulk-loop iteration whose reset field set needs read-modify-write. -/
theorem resetStep_rmw (regs : Nat → Nat) (r : RegisterInfo)
    (rfs : RegisterFieldSet) (hr : resetFieldValues r = .ok rfs)
    (hinv : FieldsInv rfs.fields) (hnum : rfs.get_num_fields ≠ 0)
    (hne : rfs.fields ≠ []) (hmask : rfs.get_mask ≠ 0xFF) :
    resetStep regs r =
      ([(if rfs.getRegisterAddress = REG_STATUS.address then
           TraceEntry.spi [_SPI_NOP]
         else .spi [rfs.getRegisterAddress, _SPI_NOP]),
        .spi [0b00100000 ||| rfs.getRegisterAddress,
          rfs.get_value |||
            Nat.ldiff (readByte regs rfs.getRegisterAddress) rfs.get_mask]],
       .ok ()) := by
  unfold resetStep
  rw [hr]
  show (if rfs.get_num_fields ≠ 0 then setAsStep regs [SetItem.fieldSet rfs]
        else ([], Except.ok ())) = _
  rw [if_pos hnum]
  exact setAsStep_rmw regs rfs hinv hne hmask

/-- Bulk reset step for `CONFIG`: a read-modify-write of the writable fields
at their reset values. -/
theorem resetStep_CONFIG (regs : Nat → Nat) :
    resetStep regs regCONFIG =
      ([.spi [0, 255],
        .spi [32, 8 ||| Nat.ldiff (readByte regs 0) 127]], .ok ()) := by
  rw [resetStep_rmw regs regCONFIG _ rfl (by decide) (by decide) (by decide)
    (by decide)]
  rfl

/-- Bulk reset step for `EN_AA`: a read-modify-write of the writable fields
at their reset values. -/
theorem resetStep_EN_AA (regs : Nat → Nat) :
    resetStep regs regEN_AA =
      ([.spi [1, 255],
        .spi [33, 63 ||| Nat.ldiff (readByte regs 1) 63]], .ok ()) := by
  rw [resetStep_rmw regs regEN_AA _ rfl (by decide) (by decide) (by decide)
    (by decide)]
  rfl

/-- Bulk reset step for `EN_RXADDR`: a read-modify-write of the writable fields
at their reset values. -/
theorem resetStep_EN_RXADDR (regs : Nat → Nat) :
    resetStep regs regEN_RXADDR =
      ([.spi [2, 255],
        .spi [34, 3 ||| Nat.ldiff (readByte regs 2) 63]], .ok ()) := by
  rw [resetStep_rmw regs regEN_RXADDR _ rfl (by decide) (by decide) (by decide)
    (by decide)]
  rfl

/-- Bulk reset step for `SETUP_AW`: a read-modify-write of the writable fields
at their reset values. -/
theorem resetStep_SETUP_AW (regs : Nat → Nat) :
    resetStep regs regSETUP_AW =
      ([.spi [3, 255],
        .spi [35, 3 ||| Nat.ldiff (readByte regs 3) 3]], .ok ()) := by
  rw [resetStep_rmw regs regSETUP_AW _ rfl (by decide) (by decide) (by decide)
    (by decide)]
  rfl

/-- Bulk reset step for `SETUP_RETR`: its writable fields cover all 8 bits, so it
is a direct write of the combined reset value. -/
theorem resetStep_SETUP_RETR (regs : Nat → Nat) :
    resetStep regs regSETUP_RETR = ([.spi [36, 3]], .ok ()) := rfl

/-- Bulk reset step for `RF_CH`: a read-modify-write of the writable fields
at their reset values. -/
theorem resetStep_RF_CH (regs : Nat → Nat) :
    resetStep regs regRF_CH =
      ([.spi [5, 255],
        .spi [37, 2 ||| Nat.ldiff (readByte regs 5) 127]], .ok ()) := by
  rw [resetStep_rmw regs regRF_CH _ rfl (by decide) (by decide) (by decide)
    (by decide)]
  rfl

/-- Bulk reset step for `RF_SETUP`: a read-modify-write of the writable fields
at their reset values. -/
theorem resetStep_RF_SETUP (regs : Nat → Nat) :
    resetStep regs regRF_SETUP =
      ([.spi [6, 255],
        .spi [38, 14 ||| Nat.ldiff (readByte regs 6) 190]], .ok ()) := by
  rw [resetStep_rmw regs regRF_SETUP _ rfl (by decide) (by decide) (by decide)
    (by decide)]
  rfl

/-- Bulk reset step for `STATUS`: a read-modify-write of the writable fields
at their reset values. -/
theorem resetStep_STATUS (regs : Nat → Nat) :
    resetStep regs regSTATUS =
      ([.spi [255],
        .spi [39, 0 ||| Nat.ldiff (readByte regs 7) 112]], .ok ()) := by
  rw [resetStep_rmw regs regSTATUS _ rfl (by decide) (by decide) (by decide)
    (by decide)]
  rfl

/-- Bulk reset step for `OBSERVE_TX`: no writable non-reserved fields. -/
theorem resetStep_OBSERVE_TX (regs : Nat → Nat) :
    resetStep regs regOBSERVE_TX = ([], .ok ()) := rfl

/-- Bulk reset step for `RPD`: no writable non-reserved fields. -/
theorem resetStep_RPD (regs : Nat → Nat) :
    resetStep regs regRPD = ([], .ok ()) := rfl

/-- Bulk reset step for `RX_ADDR_P0`: no writable non-reserved fields. -/
theorem resetStep_RX_ADDR_P0 (regs : Nat → Nat) :
    resetStep regs regRX_ADDR_P0 = ([], .ok ()) := rfl

/-- Bulk reset step for `RX_ADDR_P1`: no writable non-reserved fields. -/
theorem resetStep_RX_ADDR_P1 (regs : Nat → Nat) :
    resetStep regs regRX_ADDR_P1 = ([], .ok ()) := rfl

/-- Bulk reset step for `RX_ADDR_P2`: its writable fields cover all 8 bits, so it
is a direct write of the combined reset value. -/
theorem resetStep_RX_ADDR_P2 (regs : Nat → Nat) :
    resetStep regs regRX_ADDR_P2 = ([.spi [44, 195]], .ok ()) := rfl

/-- Bulk reset step for `RX_ADDR_P3`: its writable fields cover all 8 bits, so it
is a direct write of the combined reset value. -/
theorem resetStep_RX_ADDR_P3 (regs : Nat → Nat) :
    resetStep regs regRX_ADDR_P3 = ([.spi [45, 196]], .ok ()) := rfl

/-- Bulk reset step for `RX_ADDR_P4`: its writable fields cover all 8 bits, so it
is a direct write of the combined reset value. -/
theorem resetStep_RX_ADDR_P4 (regs : Nat → Nat) :
    resetStep regs regRX_ADDR_P4 = ([.spi [46, 197]], .ok ()) := rfl

/-- Bulk reset step for `RX_ADDR_P5`: its writable fields cover all 8 bits, so it
is a direct write of the combined reset value. -/
theorem resetStep_RX_ADDR_P5 (regs : Nat → Nat) :
    resetStep regs regRX_ADDR_P5 = ([.spi [47, 198]], .ok ()) := rfl

/-- Bulk reset step for `TX_ADDR`: no writable non-reserved fields. -/
theorem resetStep_TX_ADDR (regs : Nat → Nat) :
    resetStep regs regTX_ADDR = ([], .ok ()) := rfl

/-- Bulk reset step for `RX_PW_P0`: a read-modify-write of the writable fields
at their reset values. -/
theorem resetStep_RX_PW_P0 (regs : Nat → Nat) :
    resetStep regs regRX_PW_P0 =
      ([.spi [17, 255],
        .spi [49, 0 ||| Nat.ldiff (readByte regs 17) 63]], .ok ()) := by
  rw [resetStep_rmw regs regRX_PW_P0 _ rfl (by decide) (by decide) (by decide)
    (by decide)]
  rfl

/-- Bulk reset step for `RX_PW_P1`: a read-modify-write of the writable fields
at their reset values. -/
theorem resetStep_RX_PW_P1 (regs : Nat → Nat) :
    resetStep regs regRX_PW_P1 =
      ([.spi [18, 255],
        .spi [50, 0 ||| Nat.ldiff (readByte regs 18) 63]], .ok ()) := by
  rw [resetStep_rmw regs regRX_PW_P1 _ rfl (by decide) (by decide) (by decide)
    (by decide)]
  rfl

/-- Bulk reset step for `RX_PW_P2`: a read-modify-write of the writable fields
at their reset values. -/
theorem resetStep_RX_PW_P2 (regs : Nat → Nat) :
    resetStep regs regRX_PW_P2 =
      ([.spi [19, 255],
        .spi [51, 0 ||| Nat.ldiff (readByte regs 19) 63]], .ok ()) := by
  rw [resetStep_rmw regs regRX_PW_P2 _ rfl (by decide) (by decide) (by decide)
    (by decide)]
  rfl

/-- Bulk reset step for `RX_PW_P3`: a read-modify-write of the writable fields
at their reset values. -/
theorem resetStep_RX_PW_P3 (regs : Nat → Nat) :
    resetStep regs regRX_PW_P3 =
      ([.spi [20, 255],
        .spi [52, 0 ||| Nat.ldiff (readByte regs 20) 63]], .ok ()) := by
  rw [resetStep_rmw regs regRX_PW_P3 _ rfl (by decide) (by decide) (by decide)
    (by decide)]
  rfl

/-- Bulk reset step for `RX_PW_P4`: a read-modify-write of the writable fields
at their reset values. -/
theorem resetStep_RX_PW_P4 (regs : Nat → Nat) :
    resetStep regs regRX_PW_P4 =
      ([.spi [21, 255],
        .spi [53, 0 ||| Nat.ldiff (readByte regs 21) 63]], .ok ()) := by
  rw [resetStep_rmw regs regRX_PW_P4 _ rfl (by decide) (by decide) (by decide)
    (by decide)]
  rfl

/-- Bulk reset step for `RX_PW_P5`: a read-modify-write of the writable fields
at their reset values. -/
theorem resetStep_RX_PW_P5 (regs : Nat → Nat) :
    resetStep regs regRX_PW_P5 =
      ([.spi [22, 255],
        .spi [54, 0 ||| Nat.ldiff (readByte regs 22) 63]], .ok ()) := by
  rw [resetStep_rmw regs regRX_PW_P5 _ rfl (by decide) (by decide) (by decide)
    (by decide)]
  rfl

/-- Bulk reset step for `FIFO_STATUS`: no writable non-reserved fields. -/
theorem resetStep_FIFO_STATUS (regs : Nat → Nat) :
    resetStep regs regFIFO_STATUS = ([], .ok ()) := rfl

/-- Bulk reset step for `DYNPD`: a read-modify-write of the writable fields
at their reset values. -/
theorem resetStep_DYNPD (regs : Nat → Nat) :
    resetStep regs regDYNPD =
      ([.spi [28, 255],
        .spi [60, 0 ||| Nat.ldiff (readByte regs 28) 63]], .ok ()) := by
  rw [resetStep_rmw regs regDYNPD _ rfl (by decide) (by decide) (by decide)
    (by decide)]
  rfl

/-- Bulk reset step for `FEATURE`: a read-modify-write of the writable fields
at their reset values. -/
theorem resetStep_FEATURE (regs : Nat → Nat) :
    resetStep regs regFEATURE =
      ([.spi [29, 255],
        .spi [61, 0 ||| Nat.ldiff (readByte regs 29) 7]], .ok ()) := by
  rw [resetStep_rmw regs regFEATURE _ rfl (by decide) (by decide) (by decide)
    (by decide)]
  rfl

/-- Splitting the reset bulk loop into its per-register steps when every
step succeeds. -/
theorem resetLoop_eq_steps (regs : Nat → Nat) (l : List RegisterInfo)
    (h : ∀ r ∈ l, (resetStep regs r).2 = .ok ()) :
    resetLoop regs l =
      ((l.map (fun r => (resetStep regs r).1)).join, .ok ()) := by
  induction l with
  | nil => rfl
  | cons r rest ih =>
    have h2 := h r (by simp)
    have hr : resetStep regs r = ((resetStep regs r).1, .ok ()) := by
      have heta : ((resetStep regs r).1, (resetStep regs r).2) =
          resetStep regs r := rfl
      rw [h2] at heta
      exact heta.symm
    rw [resetLoop_cons regs r rest _ hr, ih (fun x hx => h x (by simp [hx]))]
    simp [List.join]

/-- The trace of the reset bulk loop over the whole catalog: one
read-modify-write per register with writable fields and a partial mask, one
direct write where the writable fields cover all 8 bits, nothing for
read-only or field-less registers; the STATUS read uses the bare-NOP
exchange. -/
theorem resetLoop_trace (regs : Nat → Nat) :
    resetLoop regs _REGISTERS =
      ([.spi [0, 255],
        .spi [32, 8 ||| Nat.ldiff (readByte regs 0) 127],
        .spi [1, 255],
        .spi [33, 63 ||| Nat.ldiff (readByte regs 1) 63],
        .spi [2, 255],
        .spi [34, 3 ||| Nat.ldiff (readByte regs 2) 63],
        .spi [3, 255],
        .spi [35, 3 ||| Nat.ldiff (readByte regs 3) 3],
        .spi [36, 3],
        .spi [5, 255],
        .spi [37, 2 ||| Nat.ldiff (readByte regs 5) 127],
        .spi [6, 255],
        .spi [38, 14 ||| Nat.ldiff (readByte regs 6) 190],
        .spi [255],
        .spi [39, 0 ||| Nat.ldiff (readByte regs 7) 112],
        .spi [44, 195],
        .spi [45, 196],
        .spi [46, 197],
        .spi [47, 198],
        .spi [17, 255],
        .spi [49, 0 ||| Nat.ldiff (readByte regs 17) 63],
        .spi [18, 255],
        .spi [50, 0 ||| Nat.ldiff (readByte regs 18) 63],
        .spi [19, 255],
        .spi [51, 0 ||| Nat.ldiff (readByte regs 19) 63],
        .spi [20, 255],
        .spi [52, 0 ||| Nat.ldiff (readByte regs 20) 63],
        .spi [21, 255],
        .spi [53, 0 ||| Nat.ldiff (readByte regs 21) 63],
        .spi [22, 255],
        .spi [54, 0 ||| Nat.ldiff (readByte regs 22) 63],
        .spi [28, 255],
        .spi [60, 0 ||| Nat.ldiff (readByte regs 28) 63],
        .spi [29, 255],
        .spi [61, 0 ||| Nat.ldiff (readByte regs 29) 7]], .ok ()) := by
  rw [resetLoop_eq_steps regs _REGISTERS ?hall]
  case hall =>
    intro r hr
    fin_cases hr
    · rw [resetStep_CONFIG regs]
    · rw [resetStep_EN_AA regs]
    · rw [resetStep_EN_RXADDR regs]
    · rw [resetStep_SETUP_AW regs]
    · rw [resetStep_SETUP_RETR regs]
    · rw [resetStep_RF_CH regs]
    · rw [resetStep_RF_SETUP regs]
    · rw [resetStep_STATUS regs]
    · rw [resetStep_OBSERVE_TX regs]
    · rw [resetStep_RPD regs]
    · rw [resetStep_RX_ADDR_P0 regs]
    · rw [resetStep_RX_ADDR_P1 regs]
    · rw [resetStep_RX_ADDR_P2 regs]
    · rw [resetStep_RX_ADDR_P3 regs]
    · rw [resetStep_RX_ADDR_P4 regs]
    · rw [resetStep_RX_ADDR_P5 regs]
    · rw [resetStep_TX_ADDR regs]
    · rw [resetStep_RX_PW_P0 regs]
    · rw [resetStep_RX_PW_P1 regs]
    · rw [resetStep_RX_PW_P2 regs]
    · rw [resetStep_RX_PW_P3 regs]
    · rw [resetStep_RX_PW_P4 regs]
    · rw [resetStep_RX_PW_P5 regs]
    · rw [resetStep_FIFO_STATUS regs]
    · rw [resetStep_DYNPD regs]
    · rw [resetStep_FEATURE regs]
  simp only [_REGISTERS, List.map_cons, List.map_nil,
    resetStep_CONFIG regs,
    resetStep_EN_AA regs,
    resetStep_EN_RXADDR regs,
    resetStep_SETUP_AW regs,
    resetStep_SETUP_RETR regs,
    resetStep_RF_CH regs,
    resetStep_RF_SETUP regs,
    resetStep_STATUS regs,
    resetStep_OBSERVE_TX regs,
    resetStep_RPD regs,
    resetStep_RX_ADDR_P0 regs,
    resetStep_RX_ADDR_P1 regs,
    resetStep_RX_ADDR_P2 regs,
    resetStep_RX_ADDR_P3 regs,
    resetStep_RX_ADDR_P4 regs,
    resetStep_RX_ADDR_P5 regs,
    resetStep_TX_ADDR regs,
    resetStep_RX_PW_P0 regs,
    resetStep_RX_PW_P1 regs,
    resetStep_RX_PW_P2 regs,
    resetStep_RX_PW_P3 regs,
    resetStep_RX_PW_P4 regs,
    resetStep_RX_PW_P5 regs,
    resetStep_FIFO_STATUS regs,
    resetStep_DYNPD regs,
    resetStep_FEATURE regs]
  rfl

/-- The complete trace of `reset_to_default`: CE low, the two flushes, the
bulk loop, the write-one-to-clear write, and the seven default-address
writes, in that order. -/
theorem reset_trace (regs : Nat → Nat) :
    reset_to_default regs =
      ([.gpioEnableLow, .spi [0b11100001], .spi [0b11100010],
       .spi [0, 255], .spi [32, 8 ||| Nat.ldiff (readByte regs 0) 127],
       .spi [1, 255], .spi [33, 63 ||| Nat.ldiff (readByte regs 1) 63],
       .spi [2, 255], .spi [34, 3 ||| Nat.ldiff (readByte regs 2) 63],
       .spi [3, 255], .spi [35, 3 ||| Nat.ldiff (readByte regs 3) 3],
       .spi [36, 3],
       .spi [5, 255], .spi [37, 2 ||| Nat.ldiff (readByte regs 5) 127],
       .spi [6, 255], .spi [38, 14 ||| Nat.ldiff (readByte regs 6) 190],
       .spi [255], .spi [39, 0 ||| Nat.ldiff (readByte regs 7) 112],
       .spi [44, 195], .spi [45, 196], .spi [46, 197], .spi [47, 198],
       .spi [17, 255], .spi [49, 0 ||| Nat.ldiff (readByte regs 17) 63],
       .spi [18, 255], .spi [50, 0 ||| Nat.ldiff (readByte regs 18) 63],
       .spi [19, 255], .spi [51, 0 ||| Nat.ldiff (readByte regs 19) 63],
       .spi [20, 255], .spi [52, 0 ||| Nat.ldiff (readByte regs 20) 63],
       .spi [21, 255], .spi [53, 0 ||| Nat.ldiff (readByte regs 21) 63],
       .spi [22, 255], .spi [54, 0 ||| Nat.ldiff (readByte regs 22) 63],
       .spi [28, 255], .spi [60, 0 ||| Nat.ldiff (readByte regs 28) 63],
       .spi [29, 255], .spi [61, 0 ||| Nat.ldiff (readByte regs 29) 7],
       .spi [255], .spi [39, 112 ||| Nat.ldiff (readByte regs 7) 112],
       .spi [42, 231, 231, 231, 231, 231],
       .spi [43, 194, 194, 194, 194, 194],
       .spi [44, 195], .spi [45, 196], .spi [46, 197], .spi [47, 198],
       .spi [48, 231, 231, 231, 231, 231]],
       .ok ()) := by
  unfold reset_to_default
  rw [show (match w1cFieldSet with
        | .error e => (([] : List TraceEntry), (.error e : Except NrfError Unit))
        | .ok s => setAsStep regs [.fieldSet s]) =
      setAsStep regs [.fieldSet ⟨[⟨RX_DR, 1⟩, ⟨TX_DS, 1⟩, ⟨MAX_RT, 1⟩]⟩]
      from rfl]
  rw [setAsStep_rmw regs ⟨[⟨RX_DR, 1⟩, ⟨TX_DS, 1⟩, ⟨MAX_RT, 1⟩]⟩ (by decide)
    (by decide) (by decide)]
  rw [resetLoop_trace regs]
  rfl

/-- The expected abstract shape of the reset sequence. -/
def expectedResetOps : List BusOp :=
  [.enableLow, .flushTx, .flushRx,
   .readReg 0, .writeReg 0, .readReg 1, .writeReg 1, .readReg 2, .writeReg 2,
   .readReg 3, .writeReg 3, .writeReg 4, .readReg 5, .writeReg 5,
   .readReg 6, .writeReg 6, .nop, .writeReg 7,
   .writeReg 12, .writeReg 13, .writeReg 14, .writeReg 15,
   .readReg 17, .writeReg 17, .readReg 18, .writeReg 18,
   .readReg 19, .writeReg 19, .readReg 20, .writeReg 20,
   .readReg 21, .writeReg 21, .readReg 22, .writeReg 22,
   .readReg 28, .writeReg 28, .readReg 29, .writeReg 29,
   .nop, .writeReg 7,
   .writeReg 10, .writeReg 11, .writeReg 12, .writeReg 13, .writeReg 14,
   .writeReg 15, .writeReg 16]

/-- C7: `reset_to_default` succeeds and performs, in this exact order:
enable low, `FLUSH_TX`, `FLUSH_RX`; then for every catalog register with
writable non-reserved/non-obsolete fields one reset write (with a prior read
when the fields do not cover the byte), skipping field-less and read-only
registers; then the single write-one-to-clear write to STATUS, whose written
byte has the RX_DR/TX_DS/MAX_RT bits (0x70) set to 1; then the writes of the
documented default addresses for pipes 0–5 and TX.  No register write
precedes the enable-low and flushes, and the write-one-to-clear write (trace
position 39) follows the whole bulk loop. -/
theorem C7_reset_sequence (regs : Nat → Nat) :
    (reset_to_default regs).2 = .ok () ∧
    (reset_to_default regs).1.map classify = expectedResetOps ∧
    (reset_to_default regs).1.drop 40 =
      [.spi [0x2A, 0xE7, 0xE7, 0xE7, 0xE7, 0xE7],
       .spi [0x2B, 0xC2, 0xC2, 0xC2, 0xC2, 0xC2],
       .spi [0x2C, 0xC3], .spi [0x2D, 0xC4], .spi [0x2E, 0xC5],
       .spi [0x2F, 0xC6],
       .spi [0x30, 0xE7, 0xE7, 0xE7, 0xE7, 0xE7]] ∧
    (∃ v, (reset_to_default regs).1.get? 38 = some (.spi [_SPI_NOP]) ∧
          (reset_to_default regs).1.get? 39 = some (.spi [0x27, v]) ∧
          v &&& 0x70 = 0x70) := by
  rw [reset_trace regs]
  refine ⟨rfl, ?_, rfl, ?_⟩
  · rfl
  · refine ⟨112 ||| Nat.ldiff (readByte regs 7) 112, rfl, rfl, ?_⟩
    exact or_and_self_eq (Nat.ldiff (readByte regs 7) 112) 112

end Nrf24

